import Mathlib

/-!
# go-sqlite: configuration builder and DSN compilers

A shallow embedding of `config.go`, `options.go` and `sqlite_connect.go` of the
`sqlite` package, followed by theorems about path validation and about the two
DSN compilers.

Conventions of the embedding:

* a Go `string` is a Lean `String`; the string-based types `AutoVacuumMode`,
  `Driver`, `JournalMode` and `SyncMode` are abbreviations of `String`;
* a Go `int` is a Lean `Int` (the package does no arithmetic on its integers, it
  only compares them with `0` and prints them);
* `fmt.Sprintf` is unfolded at each call site: `%s` splices the string and `%d`
  splices `Sprintf_d`, the signed decimal rendering;
* an `error` result is an `Option GoError` (`none` is `nil`), a
  `(*Config, error)` result is an `Except GoError Config`;
* the process-wide driver registry read by `sql.Drivers()` is passed explicitly
  as a list of names.
-/

namespace Sqlite

/-! ## Errors -/

/-- Go error values as the package builds them: `errors.New text` and
`fmt.Errorf` with a single `%w` verb, which records the formatted message and the
wrapped error. The two package sentinels carry different texts, so structural
equality agrees with Go's identity comparison on them. -/
inductive GoError where
  | new (text : String)
  | wrapf (msg : String) (err : GoError)
  deriving DecidableEq, Repr

/-- The `Error()` method. -/
def GoError.Error : GoError → String
  | .new text => text
  | .wrapf msg _ => msg

/-- The `Unwrap()` step used by `errors.Is`. -/
def GoError.Unwrap : GoError → Option GoError
  | .new _ => none
  | .wrapf _ err => some err

/-- The function `errors.Is err target`: walks the `Unwrap` chain of `err`
looking for `target`. -/
def errorsIs : GoError → GoError → Bool
  | .new text, target => decide (GoError.new text = target)
  | .wrapf msg err, target =>
      decide (GoError.wrapf msg err = target) || errorsIs err target

def ErrCantDetectDriver : GoError := .new "cannot detect the correct driver"

def ErrInvalidPath : GoError := .new "invalid path provided"

/-! ## Option model (`config.go`) -/

abbrev AutoVacuumMode := String
abbrev Driver := String
abbrev JournalMode := String
abbrev SyncMode := String

def AutoVacuumDefault : AutoVacuumMode := ""
def AutoVacuumNone : AutoVacuumMode := "NONE"
def AutoVacuumFull : AutoVacuumMode := "FULL"
def AutoVacuumIncremental : AutoVacuumMode := "INCREMENTAL"

def DriverMattn : Driver := "github.com/mattn/go-sqlite3"
def DriverModernc : Driver := "modernc.org/sqlite"

def DriverNameMattn : String := "sqlite3"
def DriverNameModernc : String := "sqlite"

def JournalDefault : JournalMode := ""
def JournalDelete : JournalMode := "DELETE"
def JournalTruncate : JournalMode := "TRUNCATE"
def JournalPersist : JournalMode := "PERSIST"
def JournalMemory : JournalMode := "MEMORY"
def JournalWAL : JournalMode := "WAL"
def JournalOff : JournalMode := "OFF"

def SyncDefault : SyncMode := ""
def SyncOff : SyncMode := "OFF"
def SyncNormal : SyncMode := "NORMAL"
def SyncFull : SyncMode := "FULL"
def SyncExtra : SyncMode := "EXTRA"

/-- The method `(*AutoVacuumMode).Int`. -/
def AutoVacuumMode.Int (s : AutoVacuumMode) : Int :=
  if s = AutoVacuumNone then 0
  else if s = AutoVacuumFull then 1
  else if s = AutoVacuumIncremental then 2
  else -99

/-- The method `(*SyncMode).Int`. -/
def SyncMode.Int (s : SyncMode) : Int :=
  if s = SyncOff then 0
  else if s = SyncNormal then 1
  else if s = SyncFull then 2
  else if s = SyncExtra then 3
  else -99

/-- The `Config` struct. -/
structure Config where
  DSN : String
  Driver : Driver
  DriverName : String
  Path : String
  LimitConnection : Bool
  AutoVacuumMode : AutoVacuumMode
  BusyTimeout : Int
  CaseSensitiveLike : Bool
  DeferForeignKeys : Bool
  ForeignKey : Bool
  JournalMode : JournalMode
  JournalSizeLimit : Int
  SyncMode : SyncMode
  deriving DecidableEq, Repr

/-- The function `newConfig`: the fields it does not name keep Go's zero value. -/
def newConfig : Config :=
  { DSN := ""
    Driver := ""
    DriverName := ""
    Path := ""
    LimitConnection := true
    AutoVacuumMode := ""
    BusyTimeout := 4000
    CaseSensitiveLike := false
    DeferForeignKeys := false
    ForeignKey := true
    JournalMode := JournalWAL
    JournalSizeLimit := 100000000
    SyncMode := SyncNormal }

/-! ## Regular expressions (`regexp.MustCompile`, `MatchString`) -/

/-- The fragment of RE2 syntax that `regexPath` uses. `cls p` is a one-character
class, `cat` is concatenation, `star` is `*`; `alt` and `eps` and `empty` are
needed to take derivatives. -/
inductive Regex where
  | empty
  | eps
  | cls (p : Char → Bool)
  | cat (r s : Regex)
  | alt (r s : Regex)
  | star (r : Regex)

namespace Regex

/-- A literal character. -/
def lit (c : Char) : Regex := cls (fun x => x == c)

/-- The dot `.` of RE2 without the `s` flag: any character except the newline. -/
def anyCharNotNL : Regex := cls (fun x => x != '\n')

/-- The operator `r+` is one or more repetitions. -/
def plus (r : Regex) : Regex := cat r (star r)

/-- A literal string. -/
def str : List Char → Regex
  | [] => eps
  | c :: cs => cat (lit c) (str cs)

/-- Does `r` accept the empty text? -/
def nullable : Regex → Bool
  | empty => false
  | eps => true
  | cls _ => false
  | cat r s => nullable r && nullable s
  | alt r s => nullable r || nullable s
  | star _ => true

/-- Brzozowski derivative of `r` by the character `c`. -/
def deriv (c : Char) : Regex → Regex
  | empty => empty
  | eps => empty
  | cls p => if p c then eps else empty
  | cat r s => if nullable r then alt (cat (deriv c r) s) (deriv c s) else cat (deriv c r) s
  | alt r s => alt (deriv c r) (deriv c s)
  | star r => cat (deriv c r) (star r)

/-- Whole-text match. -/
def rmatch (r : Regex) : List Char → Bool
  | [] => nullable r
  | c :: cs => rmatch (deriv c r) cs

end Regex

/-- A compiled pattern: the body together with the `^` and `$` anchors, which
under the default flags of `regexp.Compile` match only at the beginning and at
the end of the text. -/
structure Regexp where
  beginText : Bool
  body : Regex
  endText : Bool

/-- The method `(*Regexp).MatchString`: is there a match anywhere in `s`? A match
may start at any position unless the pattern begins with `^`, and may end at any
position unless it ends with `$`. -/
def Regexp.MatchString (re : Regexp) (s : String) : Bool :=
  (if re.beginText then [s.data] else s.data.tails).any fun t =>
    (if re.endText then [t] else t.inits).any fun u => re.body.rmatch u

/-- The pattern `^file:.+\..+$`. -/
def regexPath : Regexp :=
  { beginText := true
    body :=
      Regex.cat (Regex.str ['f', 'i', 'l', 'e', ':'])
        (Regex.cat (Regex.plus Regex.anyCharNotNL)
          (Regex.cat (Regex.lit '.') (Regex.plus Regex.anyCharNotNL)))
    endText := true }

/-! ## Configuration builder (`config.go`) -/

/-- The function `validatePath`; `none` is the `nil` error. -/
def validatePath (path : String) : Option GoError :=
  if path = ":memory" then none
  else if regexPath.MatchString path then none
  else some (.wrapf ("given '" ++ path ++ "', " ++ ErrInvalidPath.Error) ErrInvalidPath)

/-! ## DSN compilers (`sqlite_connect.go`) -/

/-- The verb `%d` of `fmt.Sprintf` on an `int`: signed decimal. -/
def Sprintf_d : Int → String
  | Int.ofNat n => Nat.repr n
  | Int.negSucc n => "-" ++ Nat.repr (n + 1)

/-- The function `buildDSN`. -/
def buildDSN (path : String) (params : List String) : String :=
  match params with
  | [] => path
  | p0 :: rest => rest.foldl (fun dsn p => dsn ++ ("&" ++ p)) (path ++ ("?" ++ p0))

/-- The parameter list that `buildMattnDSN` accumulates in `params` before it
calls `buildDSN`. -/
def mattnParams (config : Config) : List String :=
  let params : List String := []
  let params :=
    if config.AutoVacuumMode ≠ AutoVacuumDefault then
      let mode := AutoVacuumMode.Int config.AutoVacuumMode
      if mode ≠ -99 then params ++ ["_auto_vacuum=" ++ Sprintf_d mode] else params
    else params
  let params :=
    if config.BusyTimeout > 0 then params ++ ["_timeout=" ++ Sprintf_d config.BusyTimeout]
    else params
  let params :=
    if config.CaseSensitiveLike then params ++ ["_case_sensitive_like=true"] else params
  let params :=
    if config.ForeignKey then
      let params := params ++ ["_fk=true"]
      if config.DeferForeignKeys then params ++ ["defer_foreign_keys=true"] else params
    else params
  let params :=
    if config.JournalMode ≠ JournalDefault then params ++ ["_journal=" ++ config.JournalMode]
    else params
  let params :=
    if config.SyncMode ≠ SyncDefault then
      let mode := SyncMode.Int config.SyncMode
      if mode ≠ -99 then params ++ ["_sync=" ++ Sprintf_d mode] else params
    else params
  params

/-- The function `buildMattnDSN`. -/
def buildMattnDSN (config : Config) : String :=
  buildDSN config.Path (mattnParams config)

/-- The parameter list that `buildModerncDSN` accumulates in `params` before it
calls `buildDSN`. -/
def moderncParams (config : Config) : List String :=
  let params : List String := []
  let params :=
    if config.AutoVacuumMode ≠ AutoVacuumDefault then
      params ++ ["_pragma=auto_vacuum(" ++ config.AutoVacuumMode ++ ")"]
    else params
  let params :=
    if config.BusyTimeout > 0 then
      params ++ ["_pragma=busy_timeout(" ++ Sprintf_d config.BusyTimeout ++ ")"]
    else params
  let params :=
    if config.CaseSensitiveLike then params ++ ["_pragma=case_sensitive_like(1)"] else params
  let params :=
    if config.ForeignKey then
      let params := params ++ ["_pragma=foreign_keys(1)"]
      if config.DeferForeignKeys then params ++ ["_pragma=defer_foreign_keys(1)"] else params
    else params
  let params :=
    if config.JournalMode ≠ JournalDefault then
      params ++ ["_pragma=journal_mode(" ++ config.JournalMode ++ ")"]
    else params
  let params :=
    if config.SyncMode ≠ SyncDefault then
      params ++ ["_pragma=synchronous(" ++ config.SyncMode ++ ")"]
    else params
  params

/-- The function `buildModerncDSN`. -/
def buildModerncDSN (config : Config) : String :=
  buildDSN config.Path (moderncParams config)

/-- The function `detectDriver`, over the registered driver names in the order
`sql.Drivers()` returns them. -/
def detectDriver : List String → Except GoError Driver
  | [] => .error ErrCantDetectDriver
  | d :: ds =>
      if d = DriverNameModernc then .ok DriverModernc
      else if d = DriverNameMattn then .ok DriverMattn
      else detectDriver ds

/-! ## Options (`options.go`) -/

/-- The type `Option` of `options.go`: a mutation of the configuration. -/
abbrev ConfigOption := Config → Config

def WithAutoVacuumMode (mode : AutoVacuumMode) : ConfigOption :=
  fun c => { c with AutoVacuumMode := mode }

def WithBusyTimeout (timout : Int) : ConfigOption :=
  fun c => { c with BusyTimeout := timout }

def WithCaseSensitiveLike (enabled : Bool) : ConfigOption :=
  fun c => { c with CaseSensitiveLike := enabled }

def WithDeferredForeignKeys (enabled : Bool) : ConfigOption :=
  fun c => { c with DeferForeignKeys := enabled }

def WithDisabledLimits : ConfigOption :=
  fun c => { c with LimitConnection := false }

def WithDriver (driver : Driver) : ConfigOption :=
  fun c => { c with Driver := driver }

def WithDriverName (name : String) : ConfigOption :=
  fun c => { c with DriverName := name }

def WithForeignKeySupport (enabled : Bool) : ConfigOption :=
  fun c => { c with ForeignKey := enabled }

def WithJournalMode (mode : JournalMode) : ConfigOption :=
  fun c => { c with JournalMode := mode }

def WithJournalSizeLimit (limit : Int) : ConfigOption :=
  fun c => { c with JournalSizeLimit := limit }

def WithPath (dbPath : String) : ConfigOption :=
  fun c => { c with Path := dbPath }

def WithSyncMode (sync : SyncMode) : ConfigOption :=
  fun c => { c with SyncMode := sync }

/-- The function `buildConfig`; `drivers` is what `sql.Drivers()` returns. -/
def buildConfig (drivers : List String) (opts : List ConfigOption) : Except GoError Config :=
  let config := opts.foldl (fun c opt => opt c) newConfig
  let config := if config.Path = "" then { config with Path := ":memory" } else config
  match validatePath config.Path with
  | some err => .error err
  | none =>
    let resolved : Except GoError Config :=
      if config.Driver = "" then
        match detectDriver drivers with
        | .error err => .error err
        | .ok d => .ok { config with Driver := d }
      else .ok config
    match resolved with
    | .error err => .error err
    | .ok config =>
      let config :=
        if config.DriverName = "" then
          if config.Driver = DriverModernc then { config with DriverName := DriverNameModernc }
          else if config.Driver = DriverMattn then { config with DriverName := DriverNameMattn }
          else config
        else config
      let config :=
        if config.Driver = DriverModernc then { config with DSN := buildModerncDSN config }
        else if config.Driver = DriverMattn then { config with DSN := buildMattnDSN config }
        else config
      .ok config

/-! ## Lifecycle facade (`sqlite.go`, `sqlite_connect.go`) -/

/-- The calls the package makes on a `*sql.DB` handle. `ExecContext` and `Exec` are
one call: the context only bounds the execution. -/
inductive DBCall where
  | Ping
  | Exec (query : String)
  | Close
  | SetMaxIdleConns (n : Int)
  | SetMaxOpenConns (n : Int)
  | SetConnMaxLifetime (d : Int)
  | SetConnMaxIdleTime (d : Int)
  deriving DecidableEq, Repr

/-- A `*sql.DB` handle of `database/sql`, the external collaborator, as the package
sees it: the error (`none` is `nil`) that `Ping`, `Exec` and `Close` return, which
may depend on the calls made on the handle so far. -/
structure DB where
  Ping : List DBCall → Option GoError
  Exec : List DBCall → String → Option GoError
  Close : List DBCall → Option GoError

/-- The function `OptimizeContext`: the returned error, and the calls on the
handle extended by the one made. -/
def OptimizeContext (db : DB) (calls : List DBCall) : Option GoError × List DBCall :=
  match db.Exec calls "PRAGMA optimize;" with
  | some err => (some err, calls ++ [.Exec "PRAGMA optimize;"])
  | none => (none, calls ++ [.Exec "PRAGMA optimize;"])

/-- The function `ShutdownContext`. -/
def ShutdownContext (db : DB) (calls : List DBCall) : Option GoError × List DBCall :=
  match OptimizeContext db calls with
  | (some err, calls) => (some err, calls)
  | (none, calls) =>
    match db.Close calls with
    | some err => (some err, calls ++ [.Close])
    | none => (none, calls ++ [.Close])

/-- The function `VacuumContext`. -/
def VacuumContext (db : DB) (calls : List DBCall) : Option GoError × List DBCall :=
  match db.Exec calls "VACUUM;" with
  | some err => (some err, calls ++ [.Exec "VACUUM;"])
  | none => (none, calls ++ [.Exec "VACUUM;"])

/-- The type `sqlOpenFunc`: the driver name and the DSN give a handle or an error. -/
abbrev sqlOpenFunc := String → String → Except GoError DB

/-- The function `connect`: the result pair `(*sql.DB, error)`, and the calls on the
opened handle, which start from `calls`. -/
def connect (drivers : List String) (openFunc : sqlOpenFunc) (opts : List ConfigOption)
    (calls : List DBCall) : (Option DB × Option GoError) × List DBCall :=
  match buildConfig drivers opts with
  | .error err => ((none, some err), calls)
  | .ok config =>
    match openFunc config.DriverName config.DSN with
    | .error err => ((none, some err), calls)
    | .ok db =>
      match db.Ping calls with
      | some err => ((none, some err), calls ++ [.Ping])
      | none =>
        let calls := calls ++ [.Ping]
        let calls :=
          if config.LimitConnection then
            calls ++ [.SetMaxIdleConns 1, .SetMaxOpenConns 1, .SetConnMaxLifetime 0,
              .SetConnMaxIdleTime 0]
          else calls
        if config.JournalSizeLimit > 0 then
          let query := "PRAGMA journal_size_limit = " ++ Sprintf_d config.JournalSizeLimit ++ ";"
          match db.Exec calls query with
          | some err => ((none, some err), calls ++ [.Exec query])
          | none => ((some db, none), calls ++ [.Exec query])
        else ((some db, none), calls)

/-- The function `detectDriver` with the result pair `(Driver, error)` of the source;
`detectDriver` above reads the same pair as a success or a failure. -/
def detectDriverPair : List String → Driver × Option GoError
  | [] => ("", some ErrCantDetectDriver)
  | d :: ds =>
      if d = DriverNameModernc then (DriverModernc, none)
      else if d = DriverNameMattn then (DriverMattn, none)
      else detectDriverPair ds

/-! ## Specification vocabulary

Definitions used only to state the theorems below. -/

namespace Regex

/-- The texts a regular expression denotes. -/
inductive Matches : Regex → List Char → Prop where
  | eps : Matches eps []
  | cls {p : Char → Bool} {c : Char} : p c = true → Matches (cls p) [c]
  | cat {r s : Regex} {u v : List Char} : Matches r u → Matches s v → Matches (cat r s) (u ++ v)
  | altL {r s : Regex} {u : List Char} : Matches r u → Matches (alt r s) u
  | altR {r s : Regex} {u : List Char} : Matches s u → Matches (alt r s) u
  | starNil {r : Regex} : Matches (star r) []
  | starCons {r : Regex} {u v : List Char} :
      Matches r u → Matches (star r) v → Matches (star r) (u ++ v)

end Regex

/-- The function `strings.Repeat`. -/
def strRepeat (s : String) : Nat → String
  | 0 => ""
  | n + 1 => s ++ strRepeat s n

/-- The function `strings.Contains`: `substr` occurs as a contiguous run of `s`. -/
def strContains (s substr : String) : Prop := substr.data <:+: s.data

instance (s substr : String) : Decidable (strContains s substr) :=
  inferInstanceAs (Decidable (substr.data <:+: s.data))

/-- An `error` result is non-nil and `errors.Is` finds `target` in its chain. -/
def failsWith (r : Option GoError) (target : GoError) : Bool :=
  match r with
  | none => false
  | some err => errorsIs err target

/-- The key of a DSN parameter `key=value`: the text before the first `=`. -/
def paramKey (p : String) : String := ⟨p.data.takeWhile (fun c => c != '=')⟩

/-- The value of a DSN parameter `key=value`: the text after the first `=`. -/
def paramValue (p : String) : String := ⟨(p.data.dropWhile (fun c => c != '=')).drop 1⟩

/-- The pragma a modernc parameter `_pragma=name(value)` names: the text of the
value before the first `(`. -/
def pragmaName (p : String) : String := ⟨(paramValue p).data.takeWhile (fun c => c != '(')⟩

/-- The keys of the seven mattn parameters, in the order auto-vacuum, busy-timeout,
case-sensitive-like, foreign-keys, deferred-foreign-keys, journal-mode,
synchronous. -/
def mattnFieldOrder : List String :=
  ["_auto_vacuum", "_timeout", "_case_sensitive_like", "_fk", "defer_foreign_keys", "_journal",
    "_sync"]

/-- The pragma names of the seven modernc parameters, in the same field order. -/
def moderncFieldOrder : List String :=
  ["auto_vacuum", "busy_timeout", "case_sensitive_like", "foreign_keys", "defer_foreign_keys",
    "journal_mode", "synchronous"]

/-- The auto-vacuum modes the package names, the unset one included. -/
def autoVacuumModes : List AutoVacuumMode :=
  [AutoVacuumDefault, AutoVacuumNone, AutoVacuumFull, AutoVacuumIncremental]

/-- The journal modes the package names, the unset one included. -/
def journalModes : List JournalMode :=
  [JournalDefault, JournalDelete, JournalTruncate, JournalPersist, JournalMemory, JournalWAL,
    JournalOff]

/-- The synchronous modes the package names, the unset one included. -/
def syncModes : List SyncMode := [SyncDefault, SyncOff, SyncNormal, SyncFull, SyncExtra]

/-- The configuration of `Test_buildMattnDSN` and `Test_buildModerncDSN`. -/
def testAllFields : Config :=
  { newConfig with
    AutoVacuumMode := AutoVacuumIncremental
    BusyTimeout := 100
    CaseSensitiveLike := true
    ForeignKey := true
    DeferForeignKeys := true
    JournalMode := JournalPersist
    SyncMode := SyncExtra }

/-- A configuration whose journal mode is free text that spells a mattn parameter. -/
def injectedMattn : Config :=
  { newConfig with ForeignKey := false, JournalMode := "WAL&defer_foreign_keys=true" }

/-- A configuration whose journal mode is free text that spells a modernc parameter. -/
def injectedModernc : Config :=
  { newConfig with ForeignKey := false, JournalMode := "WAL)&_pragma=defer_foreign_keys(1" }

/-! ### Options and fields -/

/-- The function `optionRunner` of `options_test.go`, which is also the loop at the
head of `buildConfig`: the options are applied to the configuration in order. -/
def optionRunner (config : Config) (opts : List ConfigOption) : Config :=
  opts.foldl (fun c opt => opt c) config

/-- The twelve option constructors of `options.go`, as data. -/
inductive PkgOption where
  | withAutoVacuumMode (mode : AutoVacuumMode)
  | withBusyTimeout (timout : Int)
  | withCaseSensitiveLike (enabled : Bool)
  | withDeferredForeignKeys (enabled : Bool)
  | withDisabledLimits
  | withDriver (driver : Driver)
  | withDriverName (name : String)
  | withForeignKeySupport (enabled : Bool)
  | withJournalMode (mode : JournalMode)
  | withJournalSizeLimit (limit : Int)
  | withPath (dbPath : String)
  | withSyncMode (sync : SyncMode)
  deriving DecidableEq, Repr

/-- The option a constructor call denotes. -/
def PkgOption.toOption : PkgOption → ConfigOption
  | .withAutoVacuumMode mode => WithAutoVacuumMode mode
  | .withBusyTimeout timout => WithBusyTimeout timout
  | .withCaseSensitiveLike enabled => WithCaseSensitiveLike enabled
  | .withDeferredForeignKeys enabled => WithDeferredForeignKeys enabled
  | .withDisabledLimits => WithDisabledLimits
  | .withDriver driver => WithDriver driver
  | .withDriverName name => WithDriverName name
  | .withForeignKeySupport enabled => WithForeignKeySupport enabled
  | .withJournalMode mode => WithJournalMode mode
  | .withJournalSizeLimit limit => WithJournalSizeLimit limit
  | .withPath dbPath => WithPath dbPath
  | .withSyncMode sync => WithSyncMode sync

/-- The thirteen fields of `Config`. -/
inductive Field where
  | DSN | Driver | DriverName | Path | LimitConnection | AutoVacuumMode | BusyTimeout
  | CaseSensitiveLike | DeferForeignKeys | ForeignKey | JournalMode | JournalSizeLimit | SyncMode
  deriving DecidableEq, Repr

/-- The value of a field: a string, an integer or a boolean. -/
inductive FieldValue where
  | str (s : String)
  | int (n : Int)
  | bool (b : Bool)
  deriving DecidableEq, Repr

/-- Reading a field of a configuration. -/
def Config.get (c : Config) : Field → FieldValue
  | .DSN => .str c.DSN
  | .Driver => .str c.Driver
  | .DriverName => .str c.DriverName
  | .Path => .str c.Path
  | .LimitConnection => .bool c.LimitConnection
  | .AutoVacuumMode => .str c.AutoVacuumMode
  | .BusyTimeout => .int c.BusyTimeout
  | .CaseSensitiveLike => .bool c.CaseSensitiveLike
  | .DeferForeignKeys => .bool c.DeferForeignKeys
  | .ForeignKey => .bool c.ForeignKey
  | .JournalMode => .str c.JournalMode
  | .JournalSizeLimit => .int c.JournalSizeLimit
  | .SyncMode => .str c.SyncMode

/-- The function `strings.HasPrefix`: `s` begins with `start`. -/
def strStartsWith (s start : String) : Prop := start.data <+: s.data

instance (s start : String) : Decidable (strStartsWith s start) :=
  inferInstanceAs (Decidable (start.data <+: s.data))

/-- A caller-written option, which the type `Option` of the package admits: it
copies the path into the driver name. -/
def copyPathToDriverName : ConfigOption :=
  fun c => { c with DriverName := c.Path }

/-- The field an option constructor writes. -/
def PkgOption.field : PkgOption → Field
  | .withAutoVacuumMode _ => .AutoVacuumMode
  | .withBusyTimeout _ => .BusyTimeout
  | .withCaseSensitiveLike _ => .CaseSensitiveLike
  | .withDeferredForeignKeys _ => .DeferForeignKeys
  | .withDisabledLimits => .LimitConnection
  | .withDriver _ => .Driver
  | .withDriverName _ => .DriverName
  | .withForeignKeySupport _ => .ForeignKey
  | .withJournalMode _ => .JournalMode
  | .withJournalSizeLimit _ => .JournalSizeLimit
  | .withPath _ => .Path
  | .withSyncMode _ => .SyncMode

/-! ### The steps of `buildConfig` -/

/-- The step of `buildConfig` that substitutes the in-memory path for an empty one. -/
def defaultPathStep (config : Config) : Config :=
  if config.Path = "" then { config with Path := ":memory" } else config

/-- The step of `buildConfig` that derives the driver name from the driver. -/
def driverNameStep (config : Config) : Config :=
  if config.DriverName = "" then
    if config.Driver = DriverModernc then { config with DriverName := DriverNameModernc }
    else if config.Driver = DriverMattn then { config with DriverName := DriverNameMattn }
    else config
  else config

/-- The step of `buildConfig` that compiles the DSN for the driver. -/
def dsnStep (config : Config) : Config :=
  if config.Driver = DriverModernc then { config with DSN := buildModerncDSN config }
  else if config.Driver = DriverMattn then { config with DSN := buildMattnDSN config }
  else config

/-! ### Mocks, joins and field positions -/

/-- The error `errUnitTest` of the tests. -/
def errUnitTest : GoError := .new "unittest"

/-- A handle on which every call succeeds, except that `Exec` fails with
`errUnitTest`: the mock of `Test_connect_JournalSizeLimitError`. -/
def dbExecFails : DB :=
  { Ping := fun _ => none
    Exec := fun _ _ => some errUnitTest
    Close := fun _ => none }

/-- A handle on which `Exec` succeeds and `Close` fails with `errUnitTest`: the mock
of `TestShutdown_WithErrorOnClose`. -/
def dbCloseFails : DB :=
  { Ping := fun _ => none
    Exec := fun _ _ => none
    Close := fun _ => some errUnitTest }

/-- The function `strings.Join`. -/
def stringsJoin (elems : List String) (sep : String) : String :=
  String.intercalate sep elems

/-- The position of a mattn parameter in the field order, by its key. -/
def mattnFieldIndex (p : String) : Nat := mattnFieldOrder.indexOf (paramKey p)

/-- The position of a modernc parameter in the field order, by its pragma name. -/
def moderncFieldIndex (p : String) : Nat := moderncFieldOrder.indexOf (pragmaName p)

/-- The fields of the configuration the DSN compilers read. -/
def dsnFields : List Field :=
  [.Path, .AutoVacuumMode, .BusyTimeout, .CaseSensitiveLike, .DeferForeignKeys, .ForeignKey,
    .JournalMode, .SyncMode]

/-- The pool limits `connect` sets on the handle when `LimitConnection` is set. -/
def limitCalls (config : Config) : List DBCall :=
  if config.LimitConnection then
    [.SetMaxIdleConns 1, .SetMaxOpenConns 1, .SetConnMaxLifetime 0, .SetConnMaxIdleTime 0]
  else []

/-- The statement `connect` executes after opening, for a positive limit. -/
def journalSizeLimitQuery (config : Config) : String :=
  "PRAGMA journal_size_limit = " ++ Sprintf_d config.JournalSizeLimit ++ ";"

/-- The options of `Test_connect_JournalSizeLimitError`. -/
def sqlmockOptions : List ConfigOption := [WithDriverName "sqlmock", WithDriver DriverModernc]

/-! ### Options that keep state of their own -/

/-- The statements of `buildConfig` after the loop over the options, on the
configuration the options left. -/
def buildConfigFrom (drivers : List String) (config : Config) : Except GoError Config :=
  let config := if config.Path = "" then { config with Path := ":memory" } else config
  match validatePath config.Path with
  | some err => .error err
  | none =>
    let resolved : Except GoError Config :=
      if config.Driver = "" then
        match detectDriver drivers with
        | .error err => .error err
        | .ok d => .ok { config with Driver := d }
      else .ok config
    match resolved with
    | .error err => .error err
    | .ok config =>
      let config :=
        if config.DriverName = "" then
          if config.Driver = DriverModernc then { config with DriverName := DriverNameModernc }
          else if config.Driver = DriverMattn then { config with DriverName := DriverNameMattn }
          else config
        else config
      let config :=
        if config.Driver = DriverModernc then { config with DSN := buildModerncDSN config }
        else if config.Driver = DriverMattn then { config with DSN := buildMattnDSN config }
        else config
      .ok config

/-- A value of the Go type `Option` in full: a closure `func(c *Config)` may read and
write the variables it captures, besides the configuration. `σ` is the state of
those variables; the option maps it and the configuration to the configuration and
the state it leaves. -/
abbrev StatefulOption (σ : Type) := σ → Config → Config × σ

/-- An option that reads and writes nothing but the configuration, among the options
with state. -/
def ConfigOption.stateless {σ : Type} (opt : ConfigOption) : StatefulOption σ :=
  fun s c => (opt c, s)

/-- The loop `for _, opt := range opts { opt(config) }` of `buildConfig` over options
with state. -/
def optionRunnerS {σ : Type} (config : Config) (opts : List (StatefulOption σ)) (s : σ) :
    Config × σ :=
  opts.foldl (fun cs opt => opt cs.2 cs.1) (config, s)

/-- One run of `buildConfig` over options with state, started with the captured
variables in state `s`: the result, and the state the options leave to the next
run. -/
def buildConfigS {σ : Type} (drivers : List String) (opts : List (StatefulOption σ)) (s : σ) :
    Except GoError Config × σ :=
  (buildConfigFrom drivers (optionRunnerS newConfig opts s).1, (optionRunnerS newConfig opts s).2)

/-- What an option writes to the configuration does not depend on the state of the
variables it captured. It may still write to them. -/
def StateBlind {σ : Type} (opt : StatefulOption σ) : Prop :=
  ∀ (s s' : σ) (c : Config), (opt s c).1 = (opt s' c).1

/-- An option written by the caller that counts its calls in a captured variable and
writes the count to the busy timeout: with `n := 0` before it,
`func(c *Config) { n++; c.BusyTimeout = n }`. -/
def countingTimeout : StatefulOption Int :=
  fun n c => ({ c with BusyTimeout := n + 1 }, n + 1)

/-- An option written by the caller that counts its calls in a captured variable and
leaves the configuration alone: `func(c *Config) { n++ }`. -/
def countingCalls : StatefulOption Int :=
  fun n c => (c, n + 1)

/-! ## The derivative matcher decides the denotation -/

namespace Regex

theorem matches_empty_iff (w : List Char) : Matches empty w ↔ False :=
  Iff.intro (fun h => nomatch h) False.elim

theorem matches_eps_iff (w : List Char) : Matches eps w ↔ w = [] :=
  ⟨fun h => by cases h; rfl, fun h => h ▸ Matches.eps⟩

theorem matches_cls_iff (p : Char → Bool) (w : List Char) :
    Matches (cls p) w ↔ ∃ c, w = [c] ∧ p c = true :=
  ⟨fun h => by cases h with | cls hc => exact ⟨_, rfl, hc⟩,
   fun ⟨_, hw, hc⟩ => hw ▸ Matches.cls hc⟩

theorem matches_cat_iff (r s : Regex) (w : List Char) :
    Matches (cat r s) w ↔ ∃ u v, w = u ++ v ∧ Matches r u ∧ Matches s v :=
  ⟨fun h => by cases h with | cat hu hv => exact ⟨_, _, rfl, hu, hv⟩,
   fun ⟨_, _, hw, hu, hv⟩ => hw ▸ Matches.cat hu hv⟩

theorem matches_alt_iff (r s : Regex) (w : List Char) :
    Matches (alt r s) w ↔ Matches r w ∨ Matches s w :=
  ⟨fun h => by
      cases h with
      | altL hu => exact Or.inl hu
      | altR hu => exact Or.inr hu,
   fun h => h.elim Matches.altL Matches.altR⟩

/-- A non-empty text of `r*` starts with a non-empty text of `r`. -/
theorem matches_star_cons (r : Regex) (c : Char) (w : List Char) :
    Matches (star r) (c :: w) ↔ ∃ u v, w = u ++ v ∧ Matches r (c :: u) ∧ Matches (star r) v := by
  constructor
  · intro h
    generalize hx : c :: w = x at h
    generalize hq : star r = q at h
    induction h with
    | eps => cases hq
    | cls _ => cases hq
    | cat _ _ _ _ => cases hq
    | altL _ _ => cases hq
    | altR _ _ => cases hq
    | starNil => cases hx
    | @starCons r' u v hu hv _ ihv =>
      cases hq
      cases u with
      | nil => exact ihv hx rfl
      | cons a u' =>
        simp only [List.cons_append, List.cons.injEq] at hx
        obtain ⟨rfl, rfl⟩ := hx
        exact ⟨u', v, rfl, hu, hv⟩
  · rintro ⟨u, v, rfl, hu, hv⟩
    exact Matches.starCons hu hv

theorem nullable_iff (r : Regex) : nullable r = true ↔ Matches r [] := by
  induction r with
  | empty => simp [nullable, matches_empty_iff]
  | eps => simp [nullable, matches_eps_iff]
  | cls p => simp [nullable, matches_cls_iff]
  | cat r s ihr ihs =>
    simp only [nullable, Bool.and_eq_true, ihr, ihs, matches_cat_iff]
    constructor
    · rintro ⟨hr, hs⟩
      exact ⟨[], [], rfl, hr, hs⟩
    · rintro ⟨u, v, huv, hr, hs⟩
      obtain ⟨rfl, rfl⟩ := List.append_eq_nil.mp huv.symm
      exact ⟨hr, hs⟩
  | alt r s ihr ihs => simp [nullable, ihr, ihs, matches_alt_iff]
  | star r _ => simp [nullable, Matches.starNil]

theorem deriv_iff (c : Char) (r : Regex) (w : List Char) :
    Matches (deriv c r) w ↔ Matches r (c :: w) := by
  induction r generalizing w with
  | empty => simp [deriv, matches_empty_iff]
  | eps => simp [deriv, matches_empty_iff, matches_eps_iff]
  | cls p =>
    rw [deriv]
    split
    · next hp =>
      simp only [matches_eps_iff, matches_cls_iff, List.cons.injEq]
      constructor
      · rintro rfl
        exact ⟨c, ⟨rfl, rfl⟩, hp⟩
      · rintro ⟨_, ⟨_, h⟩, _⟩
        exact h
    · next hp =>
      simp only [matches_empty_iff, matches_cls_iff, List.cons.injEq, false_iff]
      rintro ⟨d, ⟨rfl, _⟩, hd⟩
      exact hp hd
  | cat r s ihr ihs =>
    have key : Matches (cat r s) (c :: w) ↔
        (∃ u v, w = u ++ v ∧ Matches r (c :: u) ∧ Matches s v) ∨
          (Matches r [] ∧ Matches s (c :: w)) := by
      rw [matches_cat_iff]
      constructor
      · rintro ⟨u, v, huv, hu, hv⟩
        cases u with
        | nil => exact Or.inr ⟨hu, by simpa using huv ▸ hv⟩
        | cons a u' =>
          simp only [List.cons_append, List.cons.injEq] at huv
          obtain ⟨rfl, rfl⟩ := huv
          exact Or.inl ⟨u', v, rfl, hu, hv⟩
      · rintro (⟨u, v, rfl, hu, hv⟩ | ⟨hr, hs⟩)
        · exact ⟨c :: u, v, rfl, hu, hv⟩
        · exact ⟨[], c :: w, rfl, hr, hs⟩
    rw [key, ← nullable_iff, deriv]
    split
    · next hn => simp only [hn, matches_alt_iff, matches_cat_iff, ihr, ihs, true_and]
    · next hn => simp [hn, matches_cat_iff, ihr]
  | alt r s ihr ihs => simp [deriv, matches_alt_iff, ihr, ihs]
  | star r ih =>
    simp only [deriv, matches_cat_iff, ih, matches_star_cons]

/-- The derivative matcher decides the denotation. -/
theorem rmatch_iff (r : Regex) (w : List Char) : rmatch r w = true ↔ Matches r w := by
  induction w generalizing r with
  | nil => simpa [rmatch] using nullable_iff r
  | cons c w ih => rw [rmatch, ih, deriv_iff]

theorem matches_lit_iff (c : Char) (w : List Char) : Matches (lit c) w ↔ w = [c] := by
  simp [lit, matches_cls_iff]

theorem matches_str_iff (l w : List Char) : Matches (str l) w ↔ w = l := by
  induction l generalizing w with
  | nil => simp [str, matches_eps_iff]
  | cons c cs ih =>
    simp only [str, matches_cat_iff, matches_lit_iff, ih]
    constructor
    · rintro ⟨_, _, rfl, rfl, rfl⟩
      rfl
    · rintro rfl
      exact ⟨[c], cs, rfl, rfl, rfl⟩

theorem matches_star_cls_iff (p : Char → Bool) (w : List Char) :
    Matches (star (cls p)) w ↔ ∀ c ∈ w, p c = true := by
  induction w with
  | nil => simp [Matches.starNil]
  | cons c w ih =>
    simp only [matches_star_cons, matches_cls_iff, List.cons.injEq, List.mem_cons,
      forall_eq_or_imp, ← ih]
    constructor
    · rintro ⟨u, v, rfl, ⟨d, ⟨rfl, rfl⟩, hd⟩, hv⟩
      exact ⟨hd, hv⟩
    · rintro ⟨hc, hw⟩
      exact ⟨[], w, rfl, ⟨c, ⟨rfl, rfl⟩, hc⟩, hw⟩

theorem matches_plus_cls_iff (p : Char → Bool) (w : List Char) :
    Matches (plus (cls p)) w ↔ w ≠ [] ∧ ∀ c ∈ w, p c = true := by
  simp only [plus, matches_cat_iff, matches_cls_iff, matches_star_cls_iff]
  constructor
  · rintro ⟨_, v, rfl, ⟨c, rfl, hc⟩, hv⟩
    refine ⟨by simp, ?_⟩
    intro d hd
    rcases List.mem_cons.mp hd with rfl | hd
    · exact hc
    · exact hv d hd
  · rintro ⟨hne, hall⟩
    cases w with
    | nil => exact absurd rfl hne
    | cons c w =>
      exact ⟨[c], w, rfl, ⟨c, rfl, hall c (List.mem_cons_self _ _)⟩,
        fun d hd => hall d (List.mem_cons_of_mem _ hd)⟩

theorem matches_plus_anyCharNotNL_iff (w : List Char) :
    Matches (plus anyCharNotNL) w ↔ w ≠ [] ∧ '\n' ∉ w := by
  rw [anyCharNotNL, matches_plus_cls_iff]
  constructor
  · rintro ⟨hne, hall⟩
    exact ⟨hne, fun hmem => by simpa using hall _ hmem⟩
  · rintro ⟨hne, hnl⟩
    refine ⟨hne, fun c hc => ?_⟩
    have : c ≠ '\n' := fun h => hnl (h ▸ hc)
    simpa using this

end Regex

/-- The texts `regexPath` matches. -/
theorem regexPath_matchString_iff (s : String) :
    regexPath.MatchString s = true ↔
      ∃ a b : List Char, a ≠ [] ∧ '\n' ∉ a ∧ b ≠ [] ∧ '\n' ∉ b ∧
        s.data = ['f', 'i', 'l', 'e', ':'] ++ a ++ '.' :: b := by
  simp only [Regexp.MatchString, regexPath, if_true, List.any_cons, List.any_nil, Bool.or_false,
    Regex.rmatch_iff, Regex.matches_cat_iff, Regex.matches_str_iff, Regex.matches_lit_iff,
    Regex.matches_plus_anyCharNotNL_iff]
  constructor
  · rintro ⟨_, _, hs, rfl, a, _, rfl, ⟨ha, ha'⟩, _, b, rfl, rfl, hb, hb'⟩
    exact ⟨a, b, ha, ha', hb, hb', by simpa using hs⟩
  · rintro ⟨a, b, ha, ha', hb, hb', hs⟩
    exact ⟨_, _, by simpa using hs, rfl, a, _, rfl, ⟨ha, ha'⟩, _, b, rfl, rfl, hb, hb'⟩

theorem validatePath_eq_none_iff (p : String) :
    validatePath p = none ↔
      p = ":memory" ∨
        ∃ a b : String, a ≠ "" ∧ '\n' ∉ a.data ∧ b ≠ "" ∧ '\n' ∉ b.data ∧
          p = "file:" ++ a ++ "." ++ b := by
  unfold validatePath
  by_cases hm : p = ":memory"
  · simp [hm]
  · simp only [hm, if_false, false_or]
    by_cases hr : regexPath.MatchString p = true
    · simp only [hr, if_true, true_iff]
      obtain ⟨a, b, ha, ha', hb, hb', hs⟩ := (regexPath_matchString_iff p).mp hr
      refine ⟨⟨a⟩, ⟨b⟩, ?_, ha', ?_, hb', ?_⟩
      · intro h; exact ha (congrArg String.data h)
      · intro h; exact hb (congrArg String.data h)
      · apply String.ext
        simpa [String.data_append] using hs
    · simp only [hr, Bool.false_eq_true, if_false, reduceCtorEq, false_iff]
      rintro ⟨a, b, ha, ha', hb, hb', rfl⟩
      apply hr
      rw [regexPath_matchString_iff]
      refine ⟨a.data, b.data, ?_, ha', ?_, hb', ?_⟩
      · intro h; exact ha (String.ext h)
      · intro h; exact hb (String.ext h)
      · simp [String.data_append]

/-! ## Lemmas on `validatePath` -/

theorem validatePath_nil_or_invalid (p : String) :
    validatePath p = none ∨ failsWith (validatePath p) ErrInvalidPath = true := by
  unfold validatePath
  split
  · exact Or.inl rfl
  · split
    · exact Or.inl rfl
    · right
      simp [failsWith, errorsIs, ErrInvalidPath]

theorem line_feed_not_mem_strRepeat (k : Nat) : '\n' ∉ (strRepeat "../" k).data := by
  induction k with
  | zero => simp [strRepeat]
  | succ k ih => 
    simp only [strRepeat, String.data_append, List.mem_append, not_or]
    exact ⟨by decide, ih⟩

/-! ## Lemmas on the DSN compilers -/

theorem buildDSN_cons (path p0 : String) (rest : List String) :
    buildDSN path (p0 :: rest) = rest.foldl (fun dsn p => dsn ++ ("&" ++ p)) (path ++ ("?" ++ p0)) := rfl

theorem append_ite_singleton {α : Type} (b : Prop) [Decidable b] (l : List α) (x : α) :
    (if b then l ++ [x] else l) = l ++ (if b then [x] else []) := by
  split <;> simp

theorem append_ite_ite_singleton {α : Type} (a b : Prop) [Decidable a] [Decidable b]
    (l : List α) (x : α) :
    (if a then (if b then l ++ [x] else l) else l) = l ++ (if a ∧ b then [x] else []) := by
  by_cases ha : a <;> by_cases hb : b <;> simp [ha, hb]

theorem append_ite_pair {α : Type} (a b : Prop) [Decidable a] [Decidable b]
    (l : List α) (x y : α) :
    (if a then (if b then l ++ [x] ++ [y] else l ++ [x]) else l) =
      l ++ (if a then x :: (if b then [y] else []) else []) := by
  by_cases ha : a <;> by_cases hb : b <;> simp [ha, hb]

/-- The parameters of `buildMattnDSN`, one block per `if` statement of the source. -/
theorem mattnParams_blocks (c : Config) :
    mattnParams c =
      (if c.AutoVacuumMode ≠ AutoVacuumDefault ∧ AutoVacuumMode.Int c.AutoVacuumMode ≠ -99 then
          ["_auto_vacuum=" ++ Sprintf_d (AutoVacuumMode.Int c.AutoVacuumMode)] else []) ++
      ((if c.BusyTimeout > 0 then ["_timeout=" ++ Sprintf_d c.BusyTimeout] else []) ++
      ((if c.CaseSensitiveLike = true then ["_case_sensitive_like=true"] else []) ++
      ((if c.ForeignKey = true then
          "_fk=true" :: (if c.DeferForeignKeys = true then ["defer_foreign_keys=true"] else [])
        else []) ++
      ((if c.JournalMode ≠ JournalDefault then ["_journal=" ++ c.JournalMode] else []) ++
      (if c.SyncMode ≠ SyncDefault ∧ SyncMode.Int c.SyncMode ≠ -99 then
          ["_sync=" ++ Sprintf_d (SyncMode.Int c.SyncMode)] else []))))) := by
  simp only [mattnParams, append_ite_singleton, append_ite_ite_singleton, append_ite_pair]
  simp only [List.nil_append, List.append_assoc]
  by_cases h1 : c.AutoVacuumMode ≠ AutoVacuumDefault <;>
  by_cases h2 : c.ForeignKey = true <;>
  by_cases h3 : c.SyncMode ≠ SyncDefault <;>
  simp [h1, h2, h3]

theorem moderncParams_blocks (c : Config) :
    moderncParams c =
      (if c.AutoVacuumMode ≠ AutoVacuumDefault then
          ["_pragma=auto_vacuum(" ++ c.AutoVacuumMode ++ ")"] else []) ++
      ((if c.BusyTimeout > 0 then ["_pragma=busy_timeout(" ++ Sprintf_d c.BusyTimeout ++ ")"]
        else []) ++
      ((if c.CaseSensitiveLike = true then ["_pragma=case_sensitive_like(1)"] else []) ++
      ((if c.ForeignKey = true then
          "_pragma=foreign_keys(1)" ::
            (if c.DeferForeignKeys = true then ["_pragma=defer_foreign_keys(1)"] else [])
        else []) ++
      ((if c.JournalMode ≠ JournalDefault then ["_pragma=journal_mode(" ++ c.JournalMode ++ ")"]
        else []) ++
      (if c.SyncMode ≠ SyncDefault then ["_pragma=synchronous(" ++ c.SyncMode ++ ")"]
        else []))))) := by
  simp only [moderncParams, append_ite_singleton, append_ite_pair]
  simp only [List.nil_append, List.append_assoc]
  by_cases h2 : c.ForeignKey = true <;> simp [h2]

theorem takeWhile_ne_append (l r : List Char) (d : Char) (h : d ∉ l) :
    (l ++ d :: r).takeWhile (fun c => c != d) = l := by
  induction l with
  | nil => simp
  | cons a l ih =>
    have ha : a ≠ d := fun e => h (e ▸ List.mem_cons_self _ _)
    have hl : d ∉ l := fun e => h (List.mem_cons_of_mem _ e)
    rw [List.cons_append, List.takeWhile_cons, ih hl]
    simp [ha]

theorem dropWhile_ne_append (l r : List Char) (d : Char) (h : d ∉ l) :
    (l ++ d :: r).dropWhile (fun c => c != d) = d :: r := by
  induction l with
  | nil => simp
  | cons a l ih =>
    have ha : a ≠ d := fun e => h (e ▸ List.mem_cons_self _ _)
    have hl : d ∉ l := fun e => h (List.mem_cons_of_mem _ e)
    rw [List.cons_append, List.dropWhile_cons, ih hl]
    simp [ha]

theorem paramKey_append (k v : String) (hk : '=' ∉ k.data) :
    paramKey (k ++ "=" ++ v) = k := by
  apply String.ext
  simp only [paramKey, String.data_append]
  simpa using takeWhile_ne_append k.data v.data '=' hk

theorem pragmaName_append (n v : String) (hn : '(' ∉ n.data) :
    pragmaName ("_pragma=" ++ n ++ "(" ++ v) = n := by
  apply String.ext
  simp only [pragmaName, paramValue, String.data_append]
  have h1 : ("_pragma=".data ++ n.data ++ "(".data ++ v.data) =
      "_pragma".data ++ '=' :: (n.data ++ '(' :: v.data) := by simp
  rw [h1, dropWhile_ne_append _ _ _ (by decide)]
  simpa using takeWhile_ne_append n.data v.data '(' hn

theorem paramKey_of_key (k pre v : String) (h : pre = k ++ "=") (hk : '=' ∉ k.data) :
    paramKey (pre ++ v) = k := by
  subst h
  exact paramKey_append k v hk

theorem pragmaName_of_pragma (n pre v w : String) (h : pre = "_pragma=" ++ n ++ "(")
    (hn : '(' ∉ n.data) : pragmaName (pre ++ v ++ w) = n := by
  subst h
  rw [String.append_assoc]
  exact pragmaName_append n (v ++ w) hn

/-- The keys of the parameters `buildMattnDSN` compiles. -/
theorem mattnParams_keys (c : Config) :
    (mattnParams c).map paramKey =
      (if c.AutoVacuumMode ≠ AutoVacuumDefault ∧ AutoVacuumMode.Int c.AutoVacuumMode ≠ -99 then
          ["_auto_vacuum"] else []) ++
      ((if c.BusyTimeout > 0 then ["_timeout"] else []) ++
      ((if c.CaseSensitiveLike = true then ["_case_sensitive_like"] else []) ++
      ((if c.ForeignKey = true then
          "_fk" :: (if c.DeferForeignKeys = true then ["defer_foreign_keys"] else [])
        else []) ++
      ((if c.JournalMode ≠ JournalDefault then ["_journal"] else []) ++
      (if c.SyncMode ≠ SyncDefault ∧ SyncMode.Int c.SyncMode ≠ -99 then ["_sync"] else []))))) := by
  have h1 : ∀ v, paramKey ("_auto_vacuum=" ++ v) = "_auto_vacuum" :=
    fun v => paramKey_of_key "_auto_vacuum" _ v (by decide) (by decide)
  have h2 : ∀ v, paramKey ("_timeout=" ++ v) = "_timeout" :=
    fun v => paramKey_of_key "_timeout" _ v (by decide) (by decide)
  have h3 : paramKey "_case_sensitive_like=true" = "_case_sensitive_like" := by decide
  have h4 : paramKey "_fk=true" = "_fk" := by decide
  have h5 : paramKey "defer_foreign_keys=true" = "defer_foreign_keys" := by decide
  have h6 : ∀ v, paramKey ("_journal=" ++ v) = "_journal" :=
    fun v => paramKey_of_key "_journal" _ v (by decide) (by decide)
  have h7 : ∀ v, paramKey ("_sync=" ++ v) = "_sync" :=
    fun v => paramKey_of_key "_sync" _ v (by decide) (by decide)
  rw [mattnParams_blocks]
  simp only [List.map_append, apply_ite (List.map paramKey), List.map_cons, List.map_nil,
    h1, h2, h3, h4, h5, h6, h7]

/-- The pragma names of the parameters `buildModerncDSN` compiles. -/
theorem moderncParams_pragmas (c : Config) :
    (moderncParams c).map pragmaName =
      (if c.AutoVacuumMode ≠ AutoVacuumDefault then ["auto_vacuum"] else []) ++
      ((if c.BusyTimeout > 0 then ["busy_timeout"] else []) ++
      ((if c.CaseSensitiveLike = true then ["case_sensitive_like"] else []) ++
      ((if c.ForeignKey = true then
          "foreign_keys" :: (if c.DeferForeignKeys = true then ["defer_foreign_keys"] else [])
        else []) ++
      ((if c.JournalMode ≠ JournalDefault then ["journal_mode"] else []) ++
      (if c.SyncMode ≠ SyncDefault then ["synchronous"] else []))))) := by
  have h1 : ∀ v w, pragmaName ("_pragma=auto_vacuum(" ++ v ++ w) = "auto_vacuum" :=
    fun v w => pragmaName_of_pragma "auto_vacuum" _ v w (by decide) (by decide)
  have h2 : ∀ v w, pragmaName ("_pragma=busy_timeout(" ++ v ++ w) = "busy_timeout" :=
    fun v w => pragmaName_of_pragma "busy_timeout" _ v w (by decide) (by decide)
  have h3 : pragmaName "_pragma=case_sensitive_like(1)" = "case_sensitive_like" := by decide
  have h4 : pragmaName "_pragma=foreign_keys(1)" = "foreign_keys" := by decide
  have h5 : pragmaName "_pragma=defer_foreign_keys(1)" = "defer_foreign_keys" := by decide
  have h6 : ∀ v w, pragmaName ("_pragma=journal_mode(" ++ v ++ w) = "journal_mode" :=
    fun v w => pragmaName_of_pragma "journal_mode" _ v w (by decide) (by decide)
  have h7 : ∀ v w, pragmaName ("_pragma=synchronous(" ++ v ++ w) = "synchronous" :=
    fun v w => pragmaName_of_pragma "synchronous" _ v w (by decide) (by decide)
  rw [moderncParams_blocks]
  simp only [List.map_append, apply_ite (List.map pragmaName), List.map_cons, List.map_nil,
    h1, h2, h3, h4, h5, h6, h7]

theorem ite_singleton_sublist {α : Type} (b : Prop) [Decidable b] (x : α) :
    List.Sublist (if b then [x] else []) [x] := by
  split
  · exact List.Sublist.refl _
  · exact List.nil_sublist _

theorem ite_pair_sublist {α : Type} (a b : Prop) [Decidable a] [Decidable b] (x y : α) :
    List.Sublist (if a then x :: (if b then [y] else []) else []) [x, y] := by
  split
  · exact List.Sublist.cons₂ x (ite_singleton_sublist b y)
  · exact List.nil_sublist _

theorem mattnParams_keys_sublist (c : Config) :
    List.Sublist ((mattnParams c).map paramKey) mattnFieldOrder := by
  rw [mattnParams_keys]
  exact (ite_singleton_sublist _ _).append ((ite_singleton_sublist _ _).append
    ((ite_singleton_sublist _ _).append ((ite_pair_sublist _ _ _ _).append
      ((ite_singleton_sublist _ _).append (ite_singleton_sublist _ _)))))

theorem moderncParams_pragmas_sublist (c : Config) :
    List.Sublist ((moderncParams c).map pragmaName) moderncFieldOrder := by
  rw [moderncParams_pragmas]
  exact (ite_singleton_sublist _ _).append ((ite_singleton_sublist _ _).append
    ((ite_singleton_sublist _ _).append ((ite_pair_sublist _ _ _ _).append
      ((ite_singleton_sublist _ _).append (ite_singleton_sublist _ _)))))

theorem strContains_append_right (s t p : String) (h : strContains s p) :
    strContains (s ++ t) p := by
  unfold strContains at *
  rw [String.data_append]
  exact h.trans (List.prefix_append s.data t.data).isInfix

theorem strContains_append_left (s t : String) : strContains (s ++ t) t := by
  unfold strContains
  rw [String.data_append]
  exact (List.suffix_append s.data t.data).isInfix

theorem strContains_foldl (p : String) (rest : List String) (acc : String)
    (h : strContains acc p ∨ p ∈ rest) :
    strContains (rest.foldl (fun dsn q => dsn ++ ("&" ++ q)) acc) p := by
  induction rest generalizing acc with
  | nil =>
    rcases h with h | h
    · exact h
    · cases h
  | cons q rest ih =>
    rw [List.foldl_cons]
    apply ih
    rcases h with h | h
    · exact Or.inl (strContains_append_right _ _ _ h)
    · rcases List.mem_cons.mp h with rfl | h
      · left
        rw [← String.append_assoc]
        exact strContains_append_left _ _
      · exact Or.inr h

/-- Every compiled parameter occurs verbatim in the DSN. -/
theorem strContains_buildDSN (path p : String) (params : List String) (h : p ∈ params) :
    strContains (buildDSN path params) p := by
  cases params with
  | nil => cases h
  | cons p0 rest =>
    rw [buildDSN_cons]
    apply strContains_foldl
    rcases List.mem_cons.mp h with rfl | h
    · left
      rw [← String.append_assoc]
      exact strContains_append_left _ _
    · exact Or.inr h

theorem mattn_defer_key (c : Config)
    (h : "defer_foreign_keys" ∈ (mattnParams c).map paramKey) :
    c.ForeignKey = true ∧ c.DeferForeignKeys = true := by
  rw [mattnParams_keys] at h
  by_cases hfk : c.ForeignKey = true
  · by_cases hd : c.DeferForeignKeys = true
    · exact ⟨hfk, hd⟩
    · exfalso
      rw [if_pos hfk, if_neg hd] at h
      revert h
      split_ifs <;> decide
  · exfalso
    rw [if_neg hfk] at h
    revert h
    split_ifs <;> decide

theorem mattn_fk_key (c : Config) (h : "_fk" ∈ (mattnParams c).map paramKey) :
    c.ForeignKey = true := by
  rw [mattnParams_keys] at h
  by_contra hfk
  rw [if_neg hfk] at h
  revert h
  split_ifs <;> decide

theorem modernc_defer_pragma (c : Config)
    (h : "defer_foreign_keys" ∈ (moderncParams c).map pragmaName) :
    c.ForeignKey = true ∧ c.DeferForeignKeys = true := by
  rw [moderncParams_pragmas] at h
  by_cases hfk : c.ForeignKey = true
  · by_cases hd : c.DeferForeignKeys = true
    · exact ⟨hfk, hd⟩
    · exfalso
      rw [if_pos hfk, if_neg hd] at h
      revert h
      split_ifs <;> decide
  · exfalso
    rw [if_neg hfk] at h
    revert h
    split_ifs <;> decide

theorem modernc_fk_pragma (c : Config) (h : "foreign_keys" ∈ (moderncParams c).map pragmaName) :
    c.ForeignKey = true := by
  rw [moderncParams_pragmas] at h
  by_contra hfk
  rw [if_neg hfk] at h
  revert h
  split_ifs <;> decide

theorem mattn_fk_mem (c : Config) (h : c.ForeignKey = true) : "_fk=true" ∈ mattnParams c := by
  rw [mattnParams_blocks]
  simp [h]

theorem modernc_fk_mem (c : Config) (h : c.ForeignKey = true) :
    "_pragma=foreign_keys(1)" ∈ moderncParams c := by
  rw [moderncParams_blocks]
  simp [h]

/-! ## Occurrences of a text in a DSN -/

theorem digitChar_isDigit : ∀ d < 10, (Nat.digitChar d).isDigit = true := by decide

theorem toDigitsCore_isDigit (fuel n : Nat) (acc : List Char)
    (hacc : ∀ ch ∈ acc, ch.isDigit = true) :
    ∀ ch ∈ Nat.toDigitsCore 10 fuel n acc, ch.isDigit = true := by
  induction fuel generalizing n acc with
  | zero => simpa [Nat.toDigitsCore] using hacc
  | succ fuel ih =>
    have hd : (Nat.digitChar (n % 10)).isDigit = true :=
      digitChar_isDigit _ (Nat.mod_lt _ (by decide))
    have hacc' : ∀ ch ∈ Nat.digitChar (n % 10) :: acc, ch.isDigit = true := by
      intro ch hch
      rcases List.mem_cons.mp hch with rfl | h
      · exact hd
      · exact hacc ch h
    rw [Nat.toDigitsCore]
    split
    · exact hacc'
    · exact ih _ _ hacc'

theorem natRepr_isDigit (n : Nat) : ∀ ch ∈ (Nat.repr n).data, ch.isDigit = true := by
  intro ch hch
  exact toDigitsCore_isDigit _ _ [] (by simp) ch (by simpa [Nat.repr, Nat.toDigits] using hch)

/-- The verb `%d` prints decimal digits, after a minus sign for a negative number. -/
theorem Sprintf_d_chars (n : Int) : ∀ ch ∈ (Sprintf_d n).data, ch = '-' ∨ ch.isDigit = true := by
  intro ch hch
  cases n with
  | ofNat m => exact Or.inr (natRepr_isDigit m ch hch)
  | negSucc m =>
    simp only [Sprintf_d, String.data_append, List.mem_append] at hch
    rcases hch with h | h
    · left
      simpa using h
    · exact Or.inr (natRepr_isDigit _ ch h)

theorem infix_of_append_sep {α : Type} (p a b : List α) (sep : α) (hsep : sep ∉ p)
    (h : p <:+: a ++ sep :: b) : p <:+: a ∨ p <:+: b := by
  obtain ⟨s, t, hst⟩ := h
  rw [List.append_assoc] at hst
  rcases List.append_eq_append_iff.mp hst with ⟨a', ha, hpt⟩ | ⟨c', hs, hc⟩
  · -- `a = s ++ a'`, `p ++ t = a' ++ sep :: b`
    rcases List.append_eq_append_iff.mp hpt with ⟨x, hx, _⟩ | ⟨y, hy, hyt⟩
    · left
      exact ⟨s, x, by rw [ha, hx, List.append_assoc]⟩
    · cases y with
      | nil =>
        left
        exact ⟨s, [], by simp [ha, hy]⟩
      | cons z y =>
        simp only [List.cons_append, List.cons.injEq] at hyt
        exact absurd (by rw [hy, hyt.1]; simp) hsep
  · cases c' with
    | nil =>
      cases p with
      | nil => exact Or.inl ⟨[], a, by simp⟩
      | cons z p =>
        simp only [List.nil_append, List.cons_append, List.cons.injEq] at hc
        exact absurd (by rw [hc.1]; simp) hsep
    | cons z c' =>
      simp only [List.cons_append, List.cons.injEq] at hc
      right
      exact ⟨c', t, by rw [hc.2, List.append_assoc]⟩

theorem strContains_foldl_inv (p : String) (hamp : '&' ∉ p.data) (rest : List String)
    (acc : String) (h : strContains (rest.foldl (fun dsn q => dsn ++ ("&" ++ q)) acc) p) :
    strContains acc p ∨ ∃ q ∈ rest, strContains q p := by
  induction rest generalizing acc with
  | nil => exact Or.inl h
  | cons q rest ih =>
    rw [List.foldl_cons] at h
    rcases ih _ h with h1 | ⟨r, hr, hrp⟩
    · have h2 : p.data <:+: acc.data ++ '&' :: q.data := by
        simpa [strContains, String.data_append] using h1
      rcases infix_of_append_sep _ _ _ _ hamp h2 with h3 | h3
      · exact Or.inl h3
      · exact Or.inr ⟨q, List.mem_cons_self _ _, h3⟩
    · exact Or.inr ⟨r, List.mem_cons_of_mem _ hr, hrp⟩

/-- A text without `?` and `&` that occurs in a DSN occurs in the path or in one
of the parameters. -/
theorem strContains_buildDSN_inv (path p : String) (params : List String)
    (hq : '?' ∉ p.data) (hamp : '&' ∉ p.data) (h : strContains (buildDSN path params) p) :
    strContains path p ∨ ∃ q ∈ params, strContains q p := by
  cases params with
  | nil => exact Or.inl h
  | cons p0 rest =>
    rw [buildDSN_cons] at h
    rcases strContains_foldl_inv p hamp rest _ h with h1 | ⟨r, hr, hrp⟩
    · have h2 : p.data <:+: path.data ++ '?' :: p0.data := by
        simpa [strContains, String.data_append] using h1
      rcases infix_of_append_sep _ _ _ _ hq h2 with h3 | h3
      · exact Or.inl h3
      · exact Or.inr ⟨p0, List.mem_cons_self _ _, h3⟩
    · exact Or.inr ⟨r, List.mem_cons_of_mem _ hr, hrp⟩

theorem d_not_mem_Sprintf_d (n : Int) : 'd' ∉ (Sprintf_d n).data := by
  intro h
  rcases Sprintf_d_chars n 'd' h with h1 | h1
  · exact absurd h1 (by decide)
  · exact absurd h1 (by decide)

theorem d_mem_of_strContains (q p : String) (hd : 'd' ∈ p.data) (h : strContains q p) :
    'd' ∈ q.data :=
  h.subset hd

/-- With an enumerated journal mode, the deferred-foreign-keys text occurs in no
mattn parameter other than those of the foreign-keys block. -/
theorem mattn_param_contains_defer (c : Config) (hj : c.JournalMode ∈ journalModes)
    (q : String) (hq : q ∈ mattnParams c) (h : strContains q "defer_foreign_keys=true") :
    c.ForeignKey = true := by
  have hd : 'd' ∈ q.data := d_mem_of_strContains q _ (by decide) h
  rw [mattnParams_blocks] at hq
  simp only [List.mem_append] at hq
  rcases hq with hq | hq | hq | hq | hq | hq
  · split at hq
    · rw [List.mem_singleton] at hq
      subst hq
      rw [String.data_append, List.mem_append] at hd
      rcases hd with hd | hd
      · exact absurd hd (by decide)
      · exact absurd hd (d_not_mem_Sprintf_d _)
    · cases hq
  · split at hq
    · rw [List.mem_singleton] at hq
      subst hq
      rw [String.data_append, List.mem_append] at hd
      rcases hd with hd | hd
      · exact absurd hd (by decide)
      · exact absurd hd (d_not_mem_Sprintf_d _)
    · cases hq
  · split at hq
    · rw [List.mem_singleton] at hq
      subst hq
      exact absurd hd (by decide)
    · cases hq
  · split at hq
    · assumption
    · cases hq
  · split at hq
    · rw [List.mem_singleton] at hq
      subst hq
      exfalso
      revert hd
      simp only [journalModes, List.mem_cons, List.mem_singleton, List.not_mem_nil, or_false]
        at hj
      rcases hj with e | e | e | e | e | e | e <;> rw [e] <;> decide
    · cases hq
  · split at hq
    · rw [List.mem_singleton] at hq
      subst hq
      rw [String.data_append, List.mem_append] at hd
      rcases hd with hd | hd
      · exact absurd hd (by decide)
      · exact absurd hd (d_not_mem_Sprintf_d _)
    · cases hq

set_option maxRecDepth 100000 in
/-- With enumerated modes, the deferred-foreign-keys pragma occurs in no modernc
parameter other than those of the foreign-keys block. -/
theorem modernc_param_contains_defer (c : Config) (ha : c.AutoVacuumMode ∈ autoVacuumModes)
    (hj : c.JournalMode ∈ journalModes) (hs : c.SyncMode ∈ syncModes)
    (q : String) (hq : q ∈ moderncParams c)
    (h : strContains q "_pragma=defer_foreign_keys(1)") : c.ForeignKey = true := by
  have hd : 'd' ∈ q.data := d_mem_of_strContains q _ (by decide) h
  rw [moderncParams_blocks] at hq
  simp only [List.mem_append] at hq
  rcases hq with hq | hq | hq | hq | hq | hq
  · split at hq
    · rw [List.mem_singleton] at hq
      subst hq
      exfalso
      revert hd
      simp only [autoVacuumModes, List.mem_cons, List.mem_singleton, List.not_mem_nil,
        or_false] at ha
      rcases ha with e | e | e | e <;> rw [e] <;> decide
    · cases hq
  · split at hq
    · rw [List.mem_singleton] at hq
      subst hq
      simp only [String.data_append, List.mem_append] at hd
      rcases hd with (hd | hd) | hd
      · exact absurd hd (by decide)
      · exact absurd hd (d_not_mem_Sprintf_d _)
      · exact absurd hd (by decide)
    · cases hq
  · split at hq
    · rw [List.mem_singleton] at hq
      subst hq
      exact absurd hd (by decide)
    · cases hq
  · split at hq
    · assumption
    · cases hq
  · split at hq
    · rw [List.mem_singleton] at hq
      subst hq
      exfalso
      revert h
      simp only [journalModes, List.mem_cons, List.mem_singleton, List.not_mem_nil, or_false]
        at hj
      rcases hj with e | e | e | e | e | e | e <;> rw [e] <;> decide
    · cases hq
  · split at hq
    · rw [List.mem_singleton] at hq
      subst hq
      exfalso
      revert hd
      simp only [syncModes, List.mem_cons, List.mem_singleton, List.not_mem_nil, or_false]
        at hs
      rcases hs with e | e | e | e | e <;> rw [e] <;> decide
    · cases hq

/-! ## Configuration builder: default DSNs -/

/-- Claim C1: `buildConfig` called with the single option `WithDriver(DriverModernc)`
succeeds, whatever drivers are registered, and the DSN of the returned configuration
is exactly the modernc rendering of the defaults on the path `:memory`. -/
theorem buildConfig_modernc_default_dsn (drivers : List String) :
    ∃ config, buildConfig drivers [WithDriver DriverModernc] = .ok config ∧
      config.DSN =
        ":memory?_pragma=busy_timeout(4000)&_pragma=foreign_keys(1)&_pragma=journal_mode(WAL)&_pragma=synchronous(NORMAL)" :=
  ⟨_, rfl, rfl⟩

/-- Claim C2: `buildConfig` called with the single option `WithDriver(DriverMattn)`
succeeds, whatever drivers are registered, and the DSN of the returned configuration
is exactly `:memory?_timeout=4000&_fk=true&_journal=WAL&_sync=1`. -/
theorem buildConfig_mattn_default_dsn (drivers : List String) :
    ∃ config, buildConfig drivers [WithDriver DriverMattn] = .ok config ∧
      config.DSN = ":memory?_timeout=4000&_fk=true&_journal=WAL&_sync=1" :=
  ⟨_, rfl, rfl⟩

/-! ## Path validation -/

/-- Claim C3, as stated, fails: the path made of `file:`, a line feed, a dot and `db`
has the form `"file:" ++ a ++ "." ++ b` with `a` and `b` non-empty, yet
`validatePath` rejects it with an error wrapping `ErrInvalidPath`, because the
dot of the pattern does not match a line feed. -/
theorem validatePath_rejects_line_feed_stem :
    (∃ a b : String, a ≠ "" ∧ b ≠ "" ∧ "file:\n.db" = "file:" ++ a ++ "." ++ b) ∧
      validatePath "file:\n.db" ≠ none ∧
      failsWith (validatePath "file:\n.db") ErrInvalidPath = true :=
  ⟨⟨"\n", "db", by decide, by decide, by decide⟩, by decide, by decide⟩

/-- Claim C3, amended: for every string `p`, `validatePath p` succeeds if and only if
`p` is `:memory` or `p = "file:" ++ a ++ "." ++ b` for non-empty strings `a` and `b`
that contain no line feed; in every other case it fails with an error that wraps
`ErrInvalidPath`. -/
theorem validatePath_accepts_iff (p : String) :
    (validatePath p = none ↔
      p = ":memory" ∨
        ∃ a b : String, a ≠ "" ∧ '\n' ∉ a.data ∧ b ≠ "" ∧ '\n' ∉ b.data ∧
          p = "file:" ++ a ++ "." ++ b) ∧
    (validatePath p = none ∨ failsWith (validatePath p) ErrInvalidPath = true) :=
  ⟨validatePath_eq_none_iff p, validatePath_nil_or_invalid p⟩

/-- Claim C4: `validatePath` accepts the five listed paths and rejects each of the
eight listed paths with an error wrapping `ErrInvalidPath`. -/
theorem validatePath_test_table :
    (∀ p ∈ [":memory", "file:data.db", "file:/data.db", "file:../../../../data.db",
        "file:../../../../../../data.db"], validatePath p = none) ∧
    (∀ p ∈ ["invalid", "invalid:/path", "file", "file:", "file:/", "file:/fsafd", "file:/data",
        "file:/data."], failsWith (validatePath p) ErrInvalidPath = true) := by
  decide

/-- Claim C5: path traversal is not rejected and a traversal segment alone satisfies
the dot requirement: for every `k ≥ 1` and every `name` without a line feed,
`validatePath` accepts `"file:"` followed by `k` copies of `"../"` and `name`,
whether or not `name` contains a dot. -/
theorem validatePath_traversal_accepted (k : Nat) (name : String) (hk : 1 ≤ k)
    (hname : '\n' ∉ name.data) :
    validatePath ("file:" ++ strRepeat "../" k ++ name) = none := by
  obtain ⟨k, rfl⟩ : ∃ j, k = j + 1 := ⟨k - 1, by omega⟩
  rw [validatePath_eq_none_iff]
  right
  refine ⟨".", "/" ++ strRepeat "../" k ++ name, by decide, by decide, ?_, ?_, ?_⟩
  · intro h
    have := congrArg String.data h
    simp [String.data_append] at this
  · simp only [String.data_append, List.mem_append, not_or]
    exact ⟨⟨by decide, line_feed_not_mem_strRepeat k⟩, hname⟩
  · apply String.ext
    simp [strRepeat, String.data_append]

/-- Claim C5 at `k = 1` and the dot-free name `data`: `file:../data` is accepted
although `file:/data` is not. -/
theorem validatePath_traversal_accepted_witness :
    validatePath "file:../data" = none ∧ validatePath "file:/data" ≠ none :=
  ⟨validatePath_traversal_accepted 1 "data" (by decide) (by decide), by decide⟩

/-! ## DSN compilers: all fields set -/

/-- Claim C6: with an enumerated auto-vacuum mode, a positive busy timeout, the three
flags set, a non-empty journal mode and an enumerated synchronous mode,
`buildMattnDSN` returns the path followed by the seven mattn parameters, the two
modes as their integer codes and integers in decimal. -/
theorem buildMattnDSN_all_fields (c : Config)
    (ha : c.AutoVacuumMode = AutoVacuumNone ∨ c.AutoVacuumMode = AutoVacuumFull ∨
      c.AutoVacuumMode = AutoVacuumIncremental)
    (hn : c.BusyTimeout > 0) (hcsl : c.CaseSensitiveLike = true) (hfk : c.ForeignKey = true)
    (hdfk : c.DeferForeignKeys = true) (hj : c.JournalMode ≠ "")
    (hs : c.SyncMode = SyncOff ∨ c.SyncMode = SyncNormal ∨ c.SyncMode = SyncFull ∨
      c.SyncMode = SyncExtra) :
    buildMattnDSN c =
      c.Path ++ "?_auto_vacuum=" ++ Sprintf_d (AutoVacuumMode.Int c.AutoVacuumMode) ++
        "&_timeout=" ++ Sprintf_d c.BusyTimeout ++
        "&_case_sensitive_like=true&_fk=true&defer_foreign_keys=true&_journal=" ++
        c.JournalMode ++ "&_sync=" ++ Sprintf_d (SyncMode.Int c.SyncMode) := by
  have ha1 : c.AutoVacuumMode ≠ AutoVacuumDefault := by
    rcases ha with h | h | h <;> rw [h] <;> decide
  have ha2 : AutoVacuumMode.Int c.AutoVacuumMode ≠ -99 := by
    rcases ha with h | h | h <;> rw [h] <;> decide
  have hs1 : c.SyncMode ≠ SyncDefault := by
    rcases hs with h | h | h | h <;> rw [h] <;> decide
  have hs2 : SyncMode.Int c.SyncMode ≠ -99 := by
    rcases hs with h | h | h | h <;> rw [h] <;> decide
  have hj1 : c.JournalMode ≠ JournalDefault := hj
  apply String.ext
  simp [buildMattnDSN, mattnParams, ha1, ha2, hs1, hs2, hj1, hn, hcsl, hfk, hdfk, buildDSN,
    String.data_append]

/-- Claim C6 on the configuration of `Test_buildMattnDSN` (INCREMENTAL, 100, PERSIST,
EXTRA on an empty path). -/
theorem buildMattnDSN_all_fields_witness :
    buildMattnDSN testAllFields =
      "?_auto_vacuum=2&_timeout=100&_case_sensitive_like=true&_fk=true&defer_foreign_keys=true&_journal=PERSIST&_sync=3" :=
  (buildMattnDSN_all_fields testAllFields (by decide) (by decide) rfl rfl rfl (by decide)
    (by decide)).trans rfl

/-- Claim C7: with a non-empty auto-vacuum string, a positive busy timeout, the three
flags set, a non-empty journal mode and a non-empty synchronous string,
`buildModerncDSN` returns the path followed by the seven pragmas, the three modes
spliced as the literal strings they are, members of their enumeration or not. -/
theorem buildModerncDSN_all_fields (c : Config) (ha : c.AutoVacuumMode ≠ "")
    (hn : c.BusyTimeout > 0) (hcsl : c.CaseSensitiveLike = true) (hfk : c.ForeignKey = true)
    (hdfk : c.DeferForeignKeys = true) (hj : c.JournalMode ≠ "") (hs : c.SyncMode ≠ "") :
    buildModerncDSN c =
      c.Path ++ "?_pragma=auto_vacuum(" ++ c.AutoVacuumMode ++ ")&_pragma=busy_timeout(" ++
        Sprintf_d c.BusyTimeout ++
        ")&_pragma=case_sensitive_like(1)&_pragma=foreign_keys(1)&_pragma=defer_foreign_keys(1)&_pragma=journal_mode(" ++
        c.JournalMode ++ ")&_pragma=synchronous(" ++ c.SyncMode ++ ")" := by
  have ha1 : c.AutoVacuumMode ≠ AutoVacuumDefault := ha
  have hs1 : c.SyncMode ≠ SyncDefault := hs
  have hj1 : c.JournalMode ≠ JournalDefault := hj
  apply String.ext
  simp [buildModerncDSN, moderncParams, ha1, hs1, hj1, hn, hcsl, hfk, hdfk, buildDSN,
    String.data_append]

/-- Claim C7 on the test configuration with both integer-coded modes replaced by the
string `invalid`, which is no member of either enumeration. -/
theorem buildModerncDSN_all_fields_witness :
    buildModerncDSN { testAllFields with AutoVacuumMode := "invalid", SyncMode := "invalid" } =
      "?_pragma=auto_vacuum(invalid)&_pragma=busy_timeout(100)&_pragma=case_sensitive_like(1)&_pragma=foreign_keys(1)&_pragma=defer_foreign_keys(1)&_pragma=journal_mode(PERSIST)&_pragma=synchronous(invalid)" :=
  (buildModerncDSN_all_fields
    { testAllFields with AutoVacuumMode := "invalid", SyncMode := "invalid" }
    (by decide) (by decide) rfl rfl rfl (by decide) (by decide)).trans rfl

/-! ## DSN compilers: field order and foreign keys -/

/-- Claim C8: for every configuration and both compilers, the parameters joined into
the DSN, read by key (mattn) or by pragma name (modernc), form a sublist of the
fixed seven-entry field order, and no field occurs twice. The list depends on the
configuration only, so not on the order options were applied in. -/
theorem params_follow_field_order (c : Config) :
    (buildMattnDSN c = buildDSN c.Path (mattnParams c) ∧
      List.Sublist ((mattnParams c).map paramKey) mattnFieldOrder ∧
      ((mattnParams c).map paramKey).Nodup) ∧
    (buildModerncDSN c = buildDSN c.Path (moderncParams c) ∧
      List.Sublist ((moderncParams c).map pragmaName) moderncFieldOrder ∧
      ((moderncParams c).map pragmaName).Nodup) :=
  ⟨⟨rfl, mattnParams_keys_sublist c, (mattnParams_keys_sublist c).nodup (by decide)⟩,
   ⟨rfl, moderncParams_pragmas_sublist c, (moderncParams_pragmas_sublist c).nodup (by decide)⟩⟩

set_option maxRecDepth 100000 in
/-- Claim C9, as stated, fails: with foreign keys disabled and a journal mode whose
text spells the deferred-foreign-keys parameter, the DSN string of either compiler
contains that parameter and does not contain the foreign-keys parameter. -/
theorem dsn_contains_deferred_without_foreign_keys :
    (buildMattnDSN injectedMattn =
        "?_timeout=4000&_journal=WAL&defer_foreign_keys=true&_sync=1" ∧
      strContains (buildMattnDSN injectedMattn) "defer_foreign_keys=true" ∧
      ¬ strContains (buildMattnDSN injectedMattn) "_fk=true") ∧
    (buildModerncDSN injectedModernc =
        "?_pragma=busy_timeout(4000)&_pragma=journal_mode(WAL)&_pragma=defer_foreign_keys(1)&_pragma=synchronous(NORMAL)" ∧
      strContains (buildModerncDSN injectedModernc) "_pragma=defer_foreign_keys(1)" ∧
      ¬ strContains (buildModerncDSN injectedModernc) "_pragma=foreign_keys(1)") := by
  decide

/-- Claim C9, amended: for every configuration, if the deferred-foreign-keys parameter
is one of the parameters a compiler emits, then the foreign-keys parameter is one
of them too, and so occurs in the DSN string. On DSN strings the implication holds
when no free-text field can spell the parameter: the path does not contain its
text and the journal mode (for modernc also the auto-vacuum and synchronous modes)
is unset or one of the named modes. -/
theorem deferred_param_needs_foreign_keys (c : Config) :
    ("defer_foreign_keys=true" ∈ mattnParams c →
      "_fk=true" ∈ mattnParams c ∧ strContains (buildMattnDSN c) "_fk=true") ∧
    ("_pragma=defer_foreign_keys(1)" ∈ moderncParams c →
      "_pragma=foreign_keys(1)" ∈ moderncParams c ∧
        strContains (buildModerncDSN c) "_pragma=foreign_keys(1)") ∧
    (¬ strContains c.Path "defer_foreign_keys=true" → c.JournalMode ∈ journalModes →
      strContains (buildMattnDSN c) "defer_foreign_keys=true" →
      strContains (buildMattnDSN c) "_fk=true") ∧
    (¬ strContains c.Path "_pragma=defer_foreign_keys(1)" →
      c.AutoVacuumMode ∈ autoVacuumModes → c.JournalMode ∈ journalModes →
      c.SyncMode ∈ syncModes →
      strContains (buildModerncDSN c) "_pragma=defer_foreign_keys(1)" →
      strContains (buildModerncDSN c) "_pragma=foreign_keys(1)") := by
  refine ⟨?_, ?_, ?_, ?_⟩
  · intro h
    have hfk := (mattn_defer_key c (List.mem_map_of_mem paramKey h)).1
    exact ⟨mattn_fk_mem c hfk, strContains_buildDSN _ _ _ (mattn_fk_mem c hfk)⟩
  · intro h
    have hfk := (modernc_defer_pragma c (List.mem_map_of_mem pragmaName h)).1
    exact ⟨modernc_fk_mem c hfk, strContains_buildDSN _ _ _ (modernc_fk_mem c hfk)⟩
  · intro hp hj h
    rcases strContains_buildDSN_inv _ _ _ (by decide) (by decide) h with h1 | ⟨q, hq, hqp⟩
    · exact absurd h1 hp
    · exact strContains_buildDSN _ _ _
        (mattn_fk_mem c (mattn_param_contains_defer c hj q hq hqp))
  · intro hp ha hj hs h
    rcases strContains_buildDSN_inv _ _ _ (by decide) (by decide) h with h1 | ⟨q, hq, hqp⟩
    · exact absurd h1 hp
    · exact strContains_buildDSN _ _ _
        (modernc_fk_mem c (modernc_param_contains_defer c ha hj hs q hq hqp))

set_option maxRecDepth 100000 in
/-- Claim C9, amended, on the test configuration, where both compilers emit the
deferred-foreign-keys parameter and every hypothesis holds. -/
theorem deferred_param_needs_foreign_keys_witness :
    ("defer_foreign_keys=true" ∈ mattnParams testAllFields ∧
      "_fk=true" ∈ mattnParams testAllFields) ∧
    ("_pragma=defer_foreign_keys(1)" ∈ moderncParams testAllFields ∧
      "_pragma=foreign_keys(1)" ∈ moderncParams testAllFields) ∧
    (strContains (buildMattnDSN testAllFields) "defer_foreign_keys=true" ∧
      strContains (buildMattnDSN testAllFields) "_fk=true") ∧
    (strContains (buildModerncDSN testAllFields) "_pragma=defer_foreign_keys(1)" ∧
      strContains (buildModerncDSN testAllFields) "_pragma=foreign_keys(1)") :=
  ⟨⟨by decide, ((deferred_param_needs_foreign_keys testAllFields).1 (by decide)).1⟩,
   ⟨by decide, ((deferred_param_needs_foreign_keys testAllFields).2.1 (by decide)).1⟩,
   ⟨by decide,
    (deferred_param_needs_foreign_keys testAllFields).2.2.1 (by decide) (by decide)
      (by decide)⟩,
   ⟨by decide,
    (deferred_param_needs_foreign_keys testAllFields).2.2.2 (by decide) (by decide) (by decide)
      (by decide) (by decide)⟩⟩

/-- Claim C10: for every configuration with `ForeignKey = false` and both compilers,
the DSN is the same with `DeferForeignKeys` true and false, and neither a
foreign-keys nor a deferred-foreign-keys parameter is among the compiled
parameters. -/
theorem deferred_ignored_without_foreign_keys (c : Config) (hfk : c.ForeignKey = false) :
    (buildMattnDSN { c with DeferForeignKeys := true } =
        buildMattnDSN { c with DeferForeignKeys := false } ∧
      "_fk" ∉ (mattnParams c).map paramKey ∧
      "defer_foreign_keys" ∉ (mattnParams c).map paramKey ∧
      "_fk=true" ∉ mattnParams c ∧ "defer_foreign_keys=true" ∉ mattnParams c) ∧
    (buildModerncDSN { c with DeferForeignKeys := true } =
        buildModerncDSN { c with DeferForeignKeys := false } ∧
      "foreign_keys" ∉ (moderncParams c).map pragmaName ∧
      "defer_foreign_keys" ∉ (moderncParams c).map pragmaName ∧
      "_pragma=foreign_keys(1)" ∉ moderncParams c ∧
      "_pragma=defer_foreign_keys(1)" ∉ moderncParams c) := by
  have hfk' : ¬ c.ForeignKey = true := by simp [hfk]
  refine ⟨⟨?_, ?_, ?_, ?_, ?_⟩, ⟨?_, ?_, ?_, ?_, ?_⟩⟩
  · simp only [buildMattnDSN, mattnParams_blocks, hfk, Bool.false_eq_true, if_false]
  · exact fun h => hfk' (mattn_fk_key c h)
  · exact fun h => hfk' (mattn_defer_key c h).1
  · exact fun h => hfk' (mattn_fk_key c (List.mem_map_of_mem paramKey h))
  · exact fun h => hfk' (mattn_defer_key c (List.mem_map_of_mem paramKey h)).1
  · simp only [buildModerncDSN, moderncParams_blocks, hfk, Bool.false_eq_true, if_false]
  · exact fun h => hfk' (modernc_fk_pragma c h)
  · exact fun h => hfk' (modernc_defer_pragma c h).1
  · exact fun h => hfk' (modernc_fk_pragma c (List.mem_map_of_mem pragmaName h))
  · exact fun h => hfk' (modernc_defer_pragma c (List.mem_map_of_mem pragmaName h)).1

/-- Claim C10 on the defaults with `ForeignKey = false`: the DSNs of the two tests,
which set `DeferForeignKeys = true`. -/
theorem deferred_ignored_without_foreign_keys_witness :
    buildMattnDSN { newConfig with ForeignKey := false, DeferForeignKeys := true } =
        "?_timeout=4000&_journal=WAL&_sync=1" ∧
      buildModerncDSN { newConfig with ForeignKey := false, DeferForeignKeys := true } =
        "?_pragma=busy_timeout(4000)&_pragma=journal_mode(WAL)&_pragma=synchronous(NORMAL)" :=
  ⟨(deferred_ignored_without_foreign_keys { newConfig with ForeignKey := false } rfl).1.1.trans
      (by decide),
   (deferred_ignored_without_foreign_keys { newConfig with ForeignKey := false } rfl).2.1.trans
      (by decide)⟩

/-! ## Lemmas on the options and on `buildConfig` -/

theorem AutoVacuumMode_Int_eq_sentinel_iff (s : AutoVacuumMode) :
    AutoVacuumMode.Int s = -99 ↔
      s ≠ AutoVacuumNone ∧ s ≠ AutoVacuumFull ∧ s ≠ AutoVacuumIncremental := by
  unfold AutoVacuumMode.Int
  split_ifs <;> simp_all

theorem SyncMode_Int_eq_sentinel_iff (s : SyncMode) :
    SyncMode.Int s = -99 ↔
      s ≠ SyncOff ∧ s ≠ SyncNormal ∧ s ≠ SyncFull ∧ s ≠ SyncExtra := by
  unfold SyncMode.Int
  split_ifs <;> simp_all

theorem filter_ite_singleton {α : Type} (b : Prop) [Decidable b] (x : α) (P : α → Bool) :
    (if b then [x] else []).filter P = if b ∧ P x = true then [x] else [] := by
  by_cases hb : b <;> by_cases hP : P x = true <;> simp [hb, hP]

theorem filter_ite_pair {α : Type} (a b : Prop) [Decidable a] [Decidable b] (x y : α)
    (P : α → Bool) (hx : P x = false) (hy : P y = false) :
    (if a then x :: (if b then [y] else []) else []).filter P = [] := by
  by_cases ha : a <;> by_cases hb : b <;> simp [ha, hb, hx, hy]

theorem paramKey_auto_vacuum (v : String) : paramKey ("_auto_vacuum=" ++ v) = "_auto_vacuum" :=
  paramKey_of_key "_auto_vacuum" _ v (by decide) (by decide)

theorem paramKey_timeout (v : String) : paramKey ("_timeout=" ++ v) = "_timeout" :=
  paramKey_of_key "_timeout" _ v (by decide) (by decide)

theorem paramKey_journal (v : String) : paramKey ("_journal=" ++ v) = "_journal" :=
  paramKey_of_key "_journal" _ v (by decide) (by decide)

theorem paramKey_sync (v : String) : paramKey ("_sync=" ++ v) = "_sync" :=
  paramKey_of_key "_sync" _ v (by decide) (by decide)

theorem pragmaName_auto_vacuum (v w : String) :
    pragmaName ("_pragma=auto_vacuum(" ++ v ++ w) = "auto_vacuum" :=
  pragmaName_of_pragma "auto_vacuum" _ v w (by decide) (by decide)

theorem pragmaName_busy_timeout (v w : String) :
    pragmaName ("_pragma=busy_timeout(" ++ v ++ w) = "busy_timeout" :=
  pragmaName_of_pragma "busy_timeout" _ v w (by decide) (by decide)

theorem pragmaName_journal_mode (v w : String) :
    pragmaName ("_pragma=journal_mode(" ++ v ++ w) = "journal_mode" :=
  pragmaName_of_pragma "journal_mode" _ v w (by decide) (by decide)

theorem pragmaName_synchronous (v w : String) :
    pragmaName ("_pragma=synchronous(" ++ v ++ w) = "synchronous" :=
  pragmaName_of_pragma "synchronous" _ v w (by decide) (by decide)

/-- The mattn parameters with the key `_timeout`. -/
theorem mattnParams_filter_timeout (c : Config) :
    (mattnParams c).filter (fun p => paramKey p = "_timeout") =
      if c.BusyTimeout > 0 then ["_timeout=" ++ Sprintf_d c.BusyTimeout] else [] := by
  rw [mattnParams_blocks]
  simp only [List.filter_append, filter_ite_singleton, paramKey_auto_vacuum, paramKey_timeout,
    paramKey_journal, paramKey_sync]
  rw [filter_ite_pair _ _ _ _ _ (by decide) (by decide)]
  have e1 : (decide ("_auto_vacuum" = "_timeout") = true) = False := by decide
  have e3 : (decide ("_journal" = "_timeout") = true) = False := by decide
  have e4 : (decide ("_sync" = "_timeout") = true) = False := by decide
  have e5 : (decide (paramKey "_case_sensitive_like=true" = "_timeout") = true) = False := by
    decide
  simp only [e1, e3, e4, e5, and_false, if_false, List.nil_append, List.append_nil,
    decide_True, and_true]

/-- The modernc parameters of the pragma `busy_timeout`. -/
theorem moderncParams_filter_busy_timeout (c : Config) :
    (moderncParams c).filter (fun p => pragmaName p = "busy_timeout") =
      if c.BusyTimeout > 0 then ["_pragma=busy_timeout(" ++ Sprintf_d c.BusyTimeout ++ ")"]
      else [] := by
  rw [moderncParams_blocks]
  simp only [List.filter_append, filter_ite_singleton, pragmaName_auto_vacuum,
    pragmaName_busy_timeout, pragmaName_journal_mode, pragmaName_synchronous]
  rw [filter_ite_pair _ _ _ _ _ (by decide) (by decide)]
  have e1 : (decide ("auto_vacuum" = "busy_timeout") = true) = False := by decide
  have e3 : (decide ("journal_mode" = "busy_timeout") = true) = False := by decide
  have e4 : (decide ("synchronous" = "busy_timeout") = true) = False := by decide
  have e5 :
      (decide (pragmaName "_pragma=case_sensitive_like(1)" = "busy_timeout") = true) = False := by
    decide
  simp only [e1, e3, e4, e5, and_false, if_false, List.nil_append, List.append_nil,
    decide_True, and_true]

theorem Sprintf_d_of_pos (n : Int) (h : 0 < n) : Sprintf_d n = Nat.repr n.toNat := by
  cases n with
  | ofNat m => rfl
  | negSucc m => exact absurd h (by simp)

theorem buildConfig_of_invalid (drivers : List String) (opts : List ConfigOption) (e : GoError)
    (h : validatePath (defaultPathStep (optionRunner newConfig opts)).Path = some e) :
    buildConfig drivers opts = .error e := by
  unfold buildConfig
  simp only [defaultPathStep, optionRunner] at h
  simp only [h]

theorem buildConfig_of_explicit (drivers : List String) (opts : List ConfigOption)
    (h : validatePath (defaultPathStep (optionRunner newConfig opts)).Path = none)
    (hd : (defaultPathStep (optionRunner newConfig opts)).Driver ≠ "") :
    buildConfig drivers opts =
      .ok (dsnStep (driverNameStep (defaultPathStep (optionRunner newConfig opts)))) := by
  unfold buildConfig
  simp only [defaultPathStep, optionRunner] at h hd
  simp only [h, hd, if_false]
  rfl

theorem buildConfig_of_undetected (drivers : List String) (opts : List ConfigOption)
    (e : GoError)
    (h : validatePath (defaultPathStep (optionRunner newConfig opts)).Path = none)
    (hd : (defaultPathStep (optionRunner newConfig opts)).Driver = "")
    (hdet : detectDriver drivers = .error e) :
    buildConfig drivers opts = .error e := by
  unfold buildConfig
  simp only [defaultPathStep, optionRunner] at h hd
  simp only [h, hd, if_true, hdet]

theorem buildConfig_of_detected (drivers : List String) (opts : List ConfigOption)
    (d : Driver)
    (h : validatePath (defaultPathStep (optionRunner newConfig opts)).Path = none)
    (hd : (defaultPathStep (optionRunner newConfig opts)).Driver = "")
    (hdet : detectDriver drivers = .ok d) :
    buildConfig drivers opts =
      .ok (dsnStep (driverNameStep
        { defaultPathStep (optionRunner newConfig opts) with Driver := d })) := by
  unfold buildConfig
  simp only [defaultPathStep, optionRunner] at h hd
  simp only [h, hd, if_true, hdet]
  rfl

theorem defaultPathStep_Path (c : Config) :
    (defaultPathStep c).Path = if c.Path = "" then ":memory" else c.Path := by
  unfold defaultPathStep
  split <;> rfl

theorem defaultPathStep_Driver (c : Config) : (defaultPathStep c).Driver = c.Driver := by
  unfold defaultPathStep
  split <;> rfl

theorem defaultPathStep_DriverName (c : Config) :
    (defaultPathStep c).DriverName = c.DriverName := by
  unfold defaultPathStep
  split <;> rfl

theorem defaultPathStep_DSN (c : Config) : (defaultPathStep c).DSN = c.DSN := by
  unfold defaultPathStep
  split <;> rfl

theorem driverNameStep_Path (c : Config) : (driverNameStep c).Path = c.Path := by
  unfold driverNameStep
  split_ifs <;> rfl

theorem driverNameStep_Driver (c : Config) : (driverNameStep c).Driver = c.Driver := by
  unfold driverNameStep
  split_ifs <;> rfl

theorem driverNameStep_DSN (c : Config) : (driverNameStep c).DSN = c.DSN := by
  unfold driverNameStep
  split_ifs <;> rfl

theorem driverNameStep_DriverName (c : Config) :
    (driverNameStep c).DriverName =
      if c.DriverName = "" then
        if c.Driver = DriverModernc then DriverNameModernc
        else if c.Driver = DriverMattn then DriverNameMattn
        else ""
      else c.DriverName := by
  unfold driverNameStep
  split_ifs with h1 <;> first | rfl | exact h1

theorem dsnStep_Path (c : Config) : (dsnStep c).Path = c.Path := by
  unfold dsnStep
  split_ifs <;> rfl

theorem dsnStep_Driver (c : Config) : (dsnStep c).Driver = c.Driver := by
  unfold dsnStep
  split_ifs <;> rfl

theorem dsnStep_DriverName (c : Config) : (dsnStep c).DriverName = c.DriverName := by
  unfold dsnStep
  split_ifs <;> rfl

theorem dsnStep_DSN (c : Config) :
    (dsnStep c).DSN =
      if c.Driver = DriverModernc then buildModerncDSN c
      else if c.Driver = DriverMattn then buildMattnDSN c
      else c.DSN := by
  unfold dsnStep
  split_ifs <;> rfl

theorem strStartsWith_foldl (path : String) (rest : List String) (acc : String)
    (h : strStartsWith acc path) :
    strStartsWith (rest.foldl (fun dsn q => dsn ++ ("&" ++ q)) acc) path := by
  induction rest generalizing acc with
  | nil => exact h
  | cons q rest ih =>
    rw [List.foldl_cons]
    apply ih
    unfold strStartsWith at *
    rw [String.data_append]
    exact h.trans (List.prefix_append _ _)

/-- A DSN begins with its path. -/
theorem strStartsWith_buildDSN (path : String) (params : List String) :
    strStartsWith (buildDSN path params) path := by
  cases params with
  | nil => exact List.prefix_refl _
  | cons p0 rest =>
    rw [buildDSN_cons]
    apply strStartsWith_foldl
    unfold strStartsWith
    rw [String.data_append]
    exact List.prefix_append _ _

theorem buildModerncDSN_startsWith (c : Config) (p : String) (h : c.Path = p) :
    strStartsWith (buildModerncDSN c) p := by
  subst h
  exact strStartsWith_buildDSN _ _

theorem buildMattnDSN_startsWith (c : Config) (p : String) (h : c.Path = p) :
    strStartsWith (buildMattnDSN c) p := by
  subst h
  exact strStartsWith_buildDSN _ _

theorem ne_empty_of_strStartsWith (s start : String) (h : strStartsWith s start)
    (hs : start ≠ "") : s ≠ "" := by
  intro e
  subst e
  apply hs
  apply String.ext
  exact List.prefix_nil.mp h

theorem validatePath_memory : validatePath ":memory" = none := by decide

theorem validatePath_of_rejected (p : String) (h : validatePath p ≠ none) :
    validatePath p =
      some (.wrapf ("given '" ++ p ++ "', invalid path provided") ErrInvalidPath) := by
  unfold validatePath at h ⊢
  split_ifs at h ⊢ with h1 h2
  · exact absurd rfl h
  · exact absurd rfl h
  · have e : "given '" ++ p ++ "', " ++ ErrInvalidPath.Error =
        "given '" ++ p ++ "', invalid path provided" := by
      rw [String.append_assoc ("given '" ++ p)]
      rfl
    rw [e]

/-- A successful `buildConfig` ran the two last steps on the configuration with the
default path and the resolved driver. -/
theorem buildConfig_ok_inv (drivers : List String) (opts : List ConfigOption) (config : Config)
    (h : buildConfig drivers opts = .ok config) :
    validatePath (defaultPathStep (optionRunner newConfig opts)).Path = none ∧
    ∃ d : Driver,
      config = dsnStep (driverNameStep
        { defaultPathStep (optionRunner newConfig opts) with Driver := d }) ∧
      ((optionRunner newConfig opts).Driver ≠ "" → d = (optionRunner newConfig opts).Driver) ∧
      ((optionRunner newConfig opts).Driver = "" → detectDriver drivers = .ok d) := by
  cases hv : validatePath (defaultPathStep (optionRunner newConfig opts)).Path with
  | some e =>
    rw [buildConfig_of_invalid drivers opts e hv] at h
    cases h
  | none =>
    refine ⟨rfl, ?_⟩
    by_cases hd : (optionRunner newConfig opts).Driver = ""
    · have hd' : (defaultPathStep (optionRunner newConfig opts)).Driver = "" := by
        rw [defaultPathStep_Driver]
        exact hd
      cases hdet : detectDriver drivers with
      | error e =>
        rw [buildConfig_of_undetected drivers opts e hv hd' hdet] at h
        cases h
      | ok d =>
        rw [buildConfig_of_detected drivers opts d hv hd' hdet] at h
        exact ⟨d, (Except.ok.inj h).symm, fun hne => absurd hd hne, fun _ => rfl⟩
    · have hd' : (defaultPathStep (optionRunner newConfig opts)).Driver ≠ "" := by
        rw [defaultPathStep_Driver]
        exact hd
      rw [buildConfig_of_explicit drivers opts hv hd'] at h
      refine ⟨(optionRunner newConfig opts).Driver, ?_, fun _ => rfl, fun he => absurd he hd⟩
      rw [← Except.ok.inj h, ← defaultPathStep_Driver]

theorem optionRunner_nil (c : Config) : optionRunner c [] = c := rfl

theorem optionRunner_cons (c : Config) (o : ConfigOption) (opts : List ConfigOption) :
    optionRunner c (o :: opts) = optionRunner (o c) opts := rfl

theorem optionRunner_append (c : Config) (xs ys : List ConfigOption) :
    optionRunner c (xs ++ ys) = optionRunner (optionRunner c xs) ys := by
  unfold optionRunner
  rw [List.foldl_append]

theorem PkgOption.toOption_DSN (p : PkgOption) (c : Config) : (p.toOption c).DSN = c.DSN := by
  cases p <;> rfl

theorem PkgOption.toOption_DriverName (p : PkgOption) (c : Config)
    (h : ∀ n, p ≠ .withDriverName n) : (p.toOption c).DriverName = c.DriverName := by
  cases p <;> first | rfl | exact absurd rfl (h _)

/-- No option of the package writes the DSN. -/
theorem optionRunner_pkg_DSN (opts : List PkgOption) (c : Config) :
    (optionRunner c (opts.map PkgOption.toOption)).DSN = c.DSN := by
  induction opts generalizing c with
  | nil => rfl
  | cons p opts ih => rw [List.map_cons, optionRunner_cons, ih, PkgOption.toOption_DSN]

/-- Only `WithDriverName` writes the driver name. -/
theorem optionRunner_pkg_DriverName (opts : List PkgOption) (c : Config)
    (h : ∀ n, PkgOption.withDriverName n ∉ opts) :
    (optionRunner c (opts.map PkgOption.toOption)).DriverName = c.DriverName := by
  induction opts generalizing c with
  | nil => rfl
  | cons p opts ih =>
    rw [List.map_cons, optionRunner_cons, ih _ (fun n hn => h n (List.mem_cons_of_mem _ hn)),
      PkgOption.toOption_DriverName]
    intro n hn
    exact h n (hn ▸ List.mem_cons_self _ _)

theorem defaultPathStep_Path_ne (c : Config) : (defaultPathStep c).Path ≠ "" := by
  rw [defaultPathStep_Path]
  split_ifs with h
  · decide
  · exact h

/-- A configuration is determined by its thirteen fields. -/
theorem Config.ext_get (c c' : Config) (h : ∀ g, c.get g = c'.get g) : c = c' := by
  cases c
  cases c'
  have h1 := h .DSN
  have h2 := h .Driver
  have h3 := h .DriverName
  have h4 := h .Path
  have h5 := h .LimitConnection
  have h6 := h .AutoVacuumMode
  have h7 := h .BusyTimeout
  have h8 := h .CaseSensitiveLike
  have h9 := h .DeferForeignKeys
  have h10 := h .ForeignKey
  have h11 := h .JournalMode
  have h12 := h .JournalSizeLimit
  have h13 := h .SyncMode
  simp only [Config.get, FieldValue.str.injEq, FieldValue.int.injEq, FieldValue.bool.injEq]
    at h1 h2 h3 h4 h5 h6 h7 h8 h9 h10 h11 h12 h13
  simp only [Config.mk.injEq]
  exact ⟨h1, h2, h3, h4, h5, h6, h7, h8, h9, h10, h11, h12, h13⟩

/-- An option of the package maps configurations that agree outside the field `f`
to configurations that agree outside `f`. -/
theorem PkgOption.toOption_agree (p : PkgOption) (f : Field) (c c' : Config)
    (h : ∀ g, g ≠ f → c.get g = c'.get g) :
    ∀ g, g ≠ f → (p.toOption c).get g = (p.toOption c').get g := by
  intro g hg
  cases p <;> cases g <;> first | rfl | exact h _ hg

theorem optionRunner_pkg_agree (mid : List PkgOption) (f : Field) (c c' : Config)
    (h : ∀ g, g ≠ f → c.get g = c'.get g) :
    ∀ g, g ≠ f →
      (optionRunner c (mid.map PkgOption.toOption)).get g =
        (optionRunner c' (mid.map PkgOption.toOption)).get g := by
  induction mid generalizing c c' with
  | nil => exact h
  | cons p mid ih =>
    rw [List.map_cons, optionRunner_cons, optionRunner_cons]
    exact ih _ _ (PkgOption.toOption_agree p f c c' h)

/-- Last write wins, for a first write `wa` that touches the field `f` only and a
last write `wb` that does not depend on the field `f`. -/
theorem optionRunner_last_write (f : Field) (wa wb : ConfigOption)
    (hwa : ∀ c, ∀ g, g ≠ f → (wa c).get g = c.get g)
    (hwb : ∀ c c', (∀ g, g ≠ f → c.get g = c'.get g) → wb c = wb c')
    (c : Config) (mid : List PkgOption) :
    optionRunner c (wa :: mid.map PkgOption.toOption ++ [wb]) =
      optionRunner c (mid.map PkgOption.toOption ++ [wb]) := by
  rw [List.cons_append, optionRunner_cons, optionRunner_append, optionRunner_append]
  exact hwb _ _ (optionRunner_pkg_agree mid f (wa c) c (hwa c))

theorem PkgOption.toOption_frame (p : PkgOption) (c : Config) :
    ∀ g, g ≠ p.field → (p.toOption c).get g = c.get g := by
  intro g hg
  cases p <;> cases g <;> first | rfl | exact absurd rfl hg

theorem PkgOption.toOption_overwrite (p : PkgOption) (c c' : Config)
    (h : ∀ g, g ≠ p.field → c.get g = c'.get g) : p.toOption c = p.toOption c' := by
  apply Config.ext_get
  intro g
  by_cases hg : g = p.field
  · subst hg
    cases p <;> rfl
  · rw [PkgOption.toOption_frame p c g hg, PkgOption.toOption_frame p c' g hg]
    exact h g hg

theorem driverNameStep_BusyTimeout (c : Config) :
    (driverNameStep c).BusyTimeout = c.BusyTimeout := by
  unfold driverNameStep
  split_ifs <;> rfl

theorem dsnStep_BusyTimeout (c : Config) : (dsnStep c).BusyTimeout = c.BusyTimeout := by
  unfold dsnStep
  split_ifs <;> rfl

theorem defaultPathStep_BusyTimeout (c : Config) :
    (defaultPathStep c).BusyTimeout = c.BusyTimeout := by
  unfold defaultPathStep
  split <;> rfl

/-! ## Integer-coded modes and the busy timeout -/

/-- Claim C11: under the mattn compiler an invalid value of an integer-coded field is
omitted and nothing else changes: a configuration whose `AutoVacuumMode` is none of
NONE, FULL, INCREMENTAL compiles to the same DSN as with `AutoVacuumMode` unset,
and one whose `SyncMode` is none of OFF, NORMAL, FULL, EXTRA compiles to the same
DSN as with `SyncMode` unset. -/
theorem mattn_invalid_mode_omitted (c : Config) :
    (c.AutoVacuumMode ≠ AutoVacuumNone → c.AutoVacuumMode ≠ AutoVacuumFull →
      c.AutoVacuumMode ≠ AutoVacuumIncremental →
      buildMattnDSN c = buildMattnDSN { c with AutoVacuumMode := "" }) ∧
    (c.SyncMode ≠ SyncOff → c.SyncMode ≠ SyncNormal → c.SyncMode ≠ SyncFull →
      c.SyncMode ≠ SyncExtra →
      buildMattnDSN c = buildMattnDSN { c with SyncMode := "" }) := by
  constructor
  · intro h1 h2 h3
    have h : AutoVacuumMode.Int c.AutoVacuumMode = -99 :=
      (AutoVacuumMode_Int_eq_sentinel_iff _).mpr ⟨h1, h2, h3⟩
    simp [buildMattnDSN, mattnParams_blocks, h, AutoVacuumDefault]
  · intro h1 h2 h3 h4
    have h : SyncMode.Int c.SyncMode = -99 :=
      (SyncMode_Int_eq_sentinel_iff _).mpr ⟨h1, h2, h3, h4⟩
    simp [buildMattnDSN, mattnParams_blocks, h, SyncDefault]

/-- Claim C11 on the configurations of `Test_buildMattnDSN_InvalidVacuumMode` and
`Test_buildMattnDSN_InvalidSyncMode`, with the DSNs those tests expect. -/
theorem mattn_invalid_mode_omitted_witness :
    buildMattnDSN { newConfig with AutoVacuumMode := "invalid" } =
        "?_timeout=4000&_fk=true&_journal=WAL&_sync=1" ∧
      buildMattnDSN { newConfig with SyncMode := "invalid" } =
        "?_timeout=4000&_fk=true&_journal=WAL" :=
  ⟨((mattn_invalid_mode_omitted { newConfig with AutoVacuumMode := "invalid" }).1 (by decide) (by decide)
      (by decide)).trans rfl,
   ((mattn_invalid_mode_omitted { newConfig with SyncMode := "invalid" }).2 (by decide) (by decide) (by decide)
      (by decide)).trans rfl⟩

/-- Claim C12: `AutoVacuumMode.Int` returns 0, 1, 2 for NONE, FULL, INCREMENTAL and
`SyncMode.Int` returns 0, 1, 2, 3 for OFF, NORMAL, FULL, EXTRA; both return -99 for
the unset value and for `invalid`; for every string, the result is -99 if and
only if the string is no named member, and it is otherwise non-negative. -/
theorem mode_codes_and_sentinel :
    (AutoVacuumMode.Int AutoVacuumNone = 0 ∧ AutoVacuumMode.Int AutoVacuumFull = 1 ∧
      AutoVacuumMode.Int AutoVacuumIncremental = 2) ∧
    (SyncMode.Int SyncOff = 0 ∧ SyncMode.Int SyncNormal = 1 ∧ SyncMode.Int SyncFull = 2 ∧
      SyncMode.Int SyncExtra = 3) ∧
    (AutoVacuumMode.Int AutoVacuumDefault = -99 ∧ SyncMode.Int SyncDefault = -99 ∧
      AutoVacuumMode.Int "invalid" = -99 ∧ SyncMode.Int "invalid" = -99) ∧
    (∀ s : AutoVacuumMode,
      (AutoVacuumMode.Int s = -99 ↔
        s ∉ [AutoVacuumNone, AutoVacuumFull, AutoVacuumIncremental]) ∧
      (AutoVacuumMode.Int s = -99 ∨ 0 ≤ AutoVacuumMode.Int s)) ∧
    (∀ s : SyncMode,
      (SyncMode.Int s = -99 ↔ s ∉ [SyncOff, SyncNormal, SyncFull, SyncExtra]) ∧
      (SyncMode.Int s = -99 ∨ 0 ≤ SyncMode.Int s)) := by
  refine ⟨by decide, by decide, by decide, ?_, ?_⟩
  · intro s
    refine ⟨by simp [AutoVacuumMode_Int_eq_sentinel_iff], ?_⟩
    unfold AutoVacuumMode.Int
    split_ifs <;> simp
  · intro s
    refine ⟨by simp [SyncMode_Int_eq_sentinel_iff], ?_⟩
    unfold SyncMode.Int
    split_ifs <;> simp

/-- Claim C13: for both compilers the busy-timeout parameter is emitted if and only
if `BusyTimeout > 0`. With `BusyTimeout ≤ 0` the DSN is that of the same
configuration with `BusyTimeout = 0` and no compiled parameter has the key
`_timeout` (the pragma name `busy_timeout`); with `BusyTimeout > 0` exactly one
has, and it is `_timeout=<n>` (`_pragma=busy_timeout(<n>)`) with `n` in decimal. -/
theorem busy_timeout_emitted_iff_positive (c : Config) :
    (c.BusyTimeout ≤ 0 →
      buildMattnDSN c = buildMattnDSN { c with BusyTimeout := 0 } ∧
      buildModerncDSN c = buildModerncDSN { c with BusyTimeout := 0 } ∧
      (mattnParams c).filter (fun p => paramKey p = "_timeout") = [] ∧
      (moderncParams c).filter (fun p => pragmaName p = "busy_timeout") = []) ∧
    (0 < c.BusyTimeout →
      (mattnParams c).filter (fun p => paramKey p = "_timeout") =
        ["_timeout=" ++ Sprintf_d c.BusyTimeout] ∧
      (moderncParams c).filter (fun p => pragmaName p = "busy_timeout") =
        ["_pragma=busy_timeout(" ++ Sprintf_d c.BusyTimeout ++ ")"] ∧
      Sprintf_d c.BusyTimeout = Nat.repr c.BusyTimeout.toNat) := by
  constructor
  · intro h
    have h' : ¬ c.BusyTimeout > 0 := not_lt.mpr h
    refine ⟨?_, ?_, ?_, ?_⟩
    · simp [buildMattnDSN, mattnParams_blocks, h']
    · simp [buildModerncDSN, moderncParams_blocks, h']
    · rw [mattnParams_filter_timeout, if_neg h']
    · rw [moderncParams_filter_busy_timeout, if_neg h']
  · intro h
    refine ⟨?_, ?_, Sprintf_d_of_pos _ h⟩
    · rw [mattnParams_filter_timeout, if_pos h]
    · rw [moderncParams_filter_busy_timeout, if_pos h]

/-- Claim C13 on the defaults with `BusyTimeout = -5` and on the defaults themselves,
where `BusyTimeout = 4000`. -/
theorem busy_timeout_emitted_iff_positive_witness :
    (buildMattnDSN { newConfig with BusyTimeout := -5 } = "?_fk=true&_journal=WAL&_sync=1" ∧
      buildModerncDSN { newConfig with BusyTimeout := -5 } =
        "?_pragma=foreign_keys(1)&_pragma=journal_mode(WAL)&_pragma=synchronous(NORMAL)") ∧
    ((mattnParams newConfig).filter (fun p => paramKey p = "_timeout") = ["_timeout=4000"] ∧
      (moderncParams newConfig).filter (fun p => pragmaName p = "busy_timeout") =
        ["_pragma=busy_timeout(4000)"]) :=
  ⟨⟨((busy_timeout_emitted_iff_positive { newConfig with BusyTimeout := -5 }).1 (by decide)).1.trans rfl,
    ((busy_timeout_emitted_iff_positive { newConfig with BusyTimeout := -5 }).1 (by decide)).2.1.trans rfl⟩,
   ⟨((busy_timeout_emitted_iff_positive newConfig).2 (by decide)).1.trans rfl, ((busy_timeout_emitted_iff_positive newConfig).2 (by decide)).2.1.trans rfl⟩⟩

/-- Claim C14: the baseline of `newConfig` has `LimitConnection = true`,
`BusyTimeout = 4000`, `ForeignKey = true`, `JournalMode = WAL`,
`JournalSizeLimit = 100000000`, `SyncMode = NORMAL`, and every other field at its
unset value. -/
theorem newConfig_defaults :
    newConfig.LimitConnection = true ∧ newConfig.BusyTimeout = 4000 ∧
      newConfig.ForeignKey = true ∧ newConfig.JournalMode = JournalWAL ∧
      newConfig.JournalMode = "WAL" ∧
      newConfig.JournalSizeLimit = 100000000 ∧ newConfig.SyncMode = SyncNormal ∧
      newConfig.SyncMode = "NORMAL" ∧
      newConfig.DSN = "" ∧ newConfig.Driver = "" ∧ newConfig.DriverName = "" ∧
      newConfig.Path = "" ∧ newConfig.AutoVacuumMode = AutoVacuumDefault ∧
      newConfig.AutoVacuumMode = "" ∧
      newConfig.CaseSensitiveLike = false ∧ newConfig.DeferForeignKeys = false := by
  decide

/-! ## Configuration builder: path, driver name, unknown driver -/

/-- Claim C15: for every list of options that leaves `Path` empty and selects a
driver, `buildConfig` succeeds with `Path = ":memory"`, and the DSN of a known
driver begins with `:memory`. -/
theorem buildConfig_default_path (drivers : List String) (opts : List ConfigOption)
    (hp : (optionRunner newConfig opts).Path = "")
    (hd : (optionRunner newConfig opts).Driver ≠ "") :
    ∃ config, buildConfig drivers opts = .ok config ∧ config.Path = ":memory" ∧
      (config.Driver = DriverModernc ∨ config.Driver = DriverMattn →
        strStartsWith config.DSN ":memory") := by
  have hpath : (defaultPathStep (optionRunner newConfig opts)).Path = ":memory" := by
    rw [defaultPathStep_Path, if_pos hp]
  have hv : validatePath (defaultPathStep (optionRunner newConfig opts)).Path = none := by
    rw [hpath]
    exact validatePath_memory
  have hd' : (defaultPathStep (optionRunner newConfig opts)).Driver ≠ "" := by
    rw [defaultPathStep_Driver]
    exact hd
  refine ⟨_, buildConfig_of_explicit drivers opts hv hd', ?_, ?_⟩
  · rw [dsnStep_Path, driverNameStep_Path, hpath]
  · intro hk
    rw [dsnStep_Driver] at hk
    rw [dsnStep_DSN]
    rcases hk with hk | hk
    · rw [if_pos hk]
      exact buildModerncDSN_startsWith _ _ (by rw [driverNameStep_Path, hpath])
    · have hk' : (driverNameStep (defaultPathStep (optionRunner newConfig opts))).Driver ≠
          DriverModernc := by
        rw [hk]
        decide
      rw [if_neg hk', if_pos hk]
      exact buildMattnDSN_startsWith _ _ (by rw [driverNameStep_Path, hpath])

/-- Claim C15 on the options of `Test_buildConfig_DefaultPath` and on a list whose
last path option is `WithPath("")`. -/
theorem buildConfig_default_path_witness :
    (∃ config, buildConfig [] [WithDriver DriverModernc] = .ok config ∧
      config.Path = ":memory" ∧
      (config.Driver = DriverModernc ∨ config.Driver = DriverMattn →
        strStartsWith config.DSN ":memory")) ∧
    (∃ config,
      buildConfig [] [WithPath "file:data.db", WithDriver DriverMattn, WithPath ""] =
        .ok config ∧
      config.Path = ":memory" ∧
      (config.Driver = DriverModernc ∨ config.Driver = DriverMattn →
        strStartsWith config.DSN ":memory")) :=
  ⟨buildConfig_default_path [] [WithDriver DriverModernc] rfl (by decide),
   buildConfig_default_path [] [WithPath "file:data.db", WithDriver DriverMattn, WithPath ""] rfl (by decide)⟩

/-- Claim C16: for every list of options after which `Path` is a non-empty string
that `validatePath` rejects, `buildConfig` returns an error `e` with
`errors.Is(e, ErrInvalidPath)` and the message `given '<p>', invalid path provided`;
and when a driver is selected, `buildConfig` fails in this case only. -/
theorem buildConfig_invalid_path (drivers : List String) (opts : List ConfigOption) :
    ((optionRunner newConfig opts).Path ≠ "" →
      validatePath (optionRunner newConfig opts).Path ≠ none →
      ∃ e, buildConfig drivers opts = .error e ∧ errorsIs e ErrInvalidPath = true ∧
        e.Error = "given '" ++ (optionRunner newConfig opts).Path ++ "', invalid path provided") ∧
    ((optionRunner newConfig opts).Driver ≠ "" →
      ((∃ e, buildConfig drivers opts = .error e) ↔
        (optionRunner newConfig opts).Path ≠ "" ∧
          validatePath (optionRunner newConfig opts).Path ≠ none)) := by
  have hfail : (optionRunner newConfig opts).Path ≠ "" →
      validatePath (optionRunner newConfig opts).Path ≠ none →
      buildConfig drivers opts =
        .error (.wrapf ("given '" ++ (optionRunner newConfig opts).Path ++
          "', invalid path provided") ErrInvalidPath) := by
    intro hp hv
    apply buildConfig_of_invalid
    rw [defaultPathStep_Path, if_neg hp]
    exact validatePath_of_rejected _ hv
  constructor
  · intro hp hv
    exact ⟨_, hfail hp hv, by simp [errorsIs, ErrInvalidPath], rfl⟩
  · intro hd
    constructor
    · rintro ⟨e, he⟩
      by_contra hcon
      have hv : validatePath (defaultPathStep (optionRunner newConfig opts)).Path = none := by
        rw [defaultPathStep_Path]
        split_ifs with hp
        · exact validatePath_memory
        · by_contra hv
          exact hcon ⟨hp, hv⟩
      have hd' : (defaultPathStep (optionRunner newConfig opts)).Driver ≠ "" := by
        rw [defaultPathStep_Driver]
        exact hd
      rw [buildConfig_of_explicit drivers opts hv hd'] at he
      cases he
    · rintro ⟨hp, hv⟩
      exact ⟨_, hfail hp hv⟩

/-- Claim C16 on the options of `Test_buildConfig_InvalidPath`, and on a valid path
with a selected driver, where `buildConfig` does not fail. -/
theorem buildConfig_invalid_path_witness :
    (∃ e, buildConfig [] [WithPath "invalid", WithDriver DriverModernc] = .error e ∧
      errorsIs e ErrInvalidPath = true ∧
      e.Error = "given 'invalid', invalid path provided") ∧
    ¬ ∃ e, buildConfig [] [WithPath "file:data.db", WithDriver DriverModernc] = .error e :=
  ⟨(buildConfig_invalid_path [] [WithPath "invalid", WithDriver DriverModernc]).1 (by decide) (by decide),
   fun h =>
    (((buildConfig_invalid_path [] [WithPath "file:data.db", WithDriver DriverModernc]).2 (by decide)).mp h).2
      (by decide)⟩

/-- Claim C17: for every successful `buildConfig`, a non-empty `DriverName` set by
the options is returned unchanged whatever the driver; otherwise the returned
`DriverName` is `sqlite` when the resolved driver is `DriverModernc` and `sqlite3`
when it is `DriverMattn`. -/
theorem buildConfig_driver_name (drivers : List String) (opts : List ConfigOption) (config : Config)
    (h : buildConfig drivers opts = .ok config) :
    ((optionRunner newConfig opts).DriverName ≠ "" →
      config.DriverName = (optionRunner newConfig opts).DriverName) ∧
    ((optionRunner newConfig opts).DriverName = "" →
      (config.Driver = DriverModernc → config.DriverName = "sqlite") ∧
      (config.Driver = DriverMattn → config.DriverName = "sqlite3")) := by
  obtain ⟨_, d, rfl, _, _⟩ := buildConfig_ok_inv drivers opts config h
  rw [dsnStep_DriverName, dsnStep_Driver, driverNameStep_Driver, driverNameStep_DriverName]
  simp only [defaultPathStep_DriverName]
  constructor
  · intro hn
    rw [if_neg hn]
  · intro hn
    rw [if_pos hn]
    constructor
    · intro hd
      rw [if_pos hd]
      rfl
    · intro hd
      have hd' : d ≠ DriverModernc := by
        rw [hd]
        decide
      rw [if_neg hd', if_pos hd]
      rfl

/-- Claim C17 on the options of `Test_buildConfig_DriverNameModernc` and
`Test_buildConfig_DriverNameMattn`, and on a list that sets a driver name. -/
theorem buildConfig_driver_name_witness :
    (∃ config, buildConfig [] [WithDriver DriverModernc] = .ok config ∧
      config.DriverName = "sqlite") ∧
    (∃ config, buildConfig [] [WithDriver DriverMattn] = .ok config ∧
      config.DriverName = "sqlite3") ∧
    (∃ config, buildConfig [] [WithDriver DriverMattn, WithDriverName "traced"] = .ok config ∧
      config.DriverName = "traced") :=
  ⟨⟨_, rfl, ((buildConfig_driver_name [] [WithDriver DriverModernc] _ rfl).2 rfl).1 rfl⟩,
   ⟨_, rfl, ((buildConfig_driver_name [] [WithDriver DriverMattn] _ rfl).2 rfl).2 rfl⟩,
   ⟨_, rfl, (buildConfig_driver_name [] [WithDriver DriverMattn, WithDriverName "traced"] _ rfl).1 (by decide)⟩⟩

/-- Claim C18: for every list of the package's options after which the driver is
non-empty and neither `DriverModernc` nor `DriverMattn`, and the path is empty or
valid, `buildConfig` succeeds and returns the configuration of the options with
the default path filled in: its DSN is empty, so is the result of neither
compiler, and its `DriverName` is what the options left, empty when the list has
no `WithDriverName`. -/
theorem buildConfig_unknown_driver (drivers : List String) (opts : List PkgOption)
    (hd0 : (optionRunner newConfig (opts.map PkgOption.toOption)).Driver ≠ "")
    (hd1 : (optionRunner newConfig (opts.map PkgOption.toOption)).Driver ≠ DriverModernc)
    (hd2 : (optionRunner newConfig (opts.map PkgOption.toOption)).Driver ≠ DriverMattn)
    (hv : (optionRunner newConfig (opts.map PkgOption.toOption)).Path = "" ∨
      validatePath (optionRunner newConfig (opts.map PkgOption.toOption)).Path = none) :
    ∃ config, buildConfig drivers (opts.map PkgOption.toOption) = .ok config ∧
      config = defaultPathStep (optionRunner newConfig (opts.map PkgOption.toOption)) ∧
      config.DSN = "" ∧ config.DSN ≠ buildModerncDSN config ∧
      config.DSN ≠ buildMattnDSN config ∧
      config.Driver = (optionRunner newConfig (opts.map PkgOption.toOption)).Driver ∧
      config.DriverName = (optionRunner newConfig (opts.map PkgOption.toOption)).DriverName ∧
      ((∀ n, PkgOption.withDriverName n ∉ opts) → config.DriverName = "") := by
  have hvalid :
      validatePath
        (defaultPathStep (optionRunner newConfig (opts.map PkgOption.toOption))).Path = none := by
    rw [defaultPathStep_Path]
    split_ifs with hp
    · exact validatePath_memory
    · exact hv.resolve_left hp
  have hd' : (defaultPathStep (optionRunner newConfig (opts.map PkgOption.toOption))).Driver ≠
      "" := by
    rw [defaultPathStep_Driver]
    exact hd0
  have hname : driverNameStep
      (defaultPathStep (optionRunner newConfig (opts.map PkgOption.toOption))) =
      defaultPathStep (optionRunner newConfig (opts.map PkgOption.toOption)) := by
    unfold driverNameStep
    rw [defaultPathStep_Driver, if_neg hd1, if_neg hd2]
    split_ifs <;> rfl
  have hdsn : dsnStep (defaultPathStep (optionRunner newConfig (opts.map PkgOption.toOption))) =
      defaultPathStep (optionRunner newConfig (opts.map PkgOption.toOption)) := by
    unfold dsnStep
    rw [defaultPathStep_Driver, if_neg hd1, if_neg hd2]
  have hempty :
      (defaultPathStep (optionRunner newConfig (opts.map PkgOption.toOption))).DSN = "" := by
    rw [defaultPathStep_DSN, optionRunner_pkg_DSN]
    rfl
  refine ⟨_, buildConfig_of_explicit drivers _ hvalid hd', ?_, ?_, ?_, ?_, ?_, ?_, ?_⟩
  · rw [hname, hdsn]
  · rw [hname, hdsn, hempty]
  · rw [hname, hdsn, hempty]
    exact (ne_empty_of_strStartsWith _ _ (strStartsWith_buildDSN _ _)
      (defaultPathStep_Path_ne _)).symm
  · rw [hname, hdsn, hempty]
    exact (ne_empty_of_strStartsWith _ _ (strStartsWith_buildDSN _ _)
      (defaultPathStep_Path_ne _)).symm
  · rw [hname, hdsn, defaultPathStep_Driver]
  · rw [hname, hdsn, defaultPathStep_DriverName]
  · intro hn
    rw [hname, hdsn, defaultPathStep_DriverName, optionRunner_pkg_DriverName _ _ hn]
    rfl

/-- Claim C18 on the options `WithPath("file:data.db")`, `WithDriver("custom")`. -/
theorem buildConfig_unknown_driver_witness :
    ∃ config,
      buildConfig [] ([PkgOption.withPath "file:data.db", PkgOption.withDriver "custom"].map
        PkgOption.toOption) = .ok config ∧
      config.DSN = "" ∧ config.DriverName = "" ∧ config.Driver = "custom" ∧
      config.Path = "file:data.db" := by
  obtain ⟨config, h1, h2, h3, _, _, h6, _, h8⟩ :=
    buildConfig_unknown_driver [] [PkgOption.withPath "file:data.db", PkgOption.withDriver "custom"]
      (by decide) (by decide) (by decide) (Or.inr (by decide))
  refine ⟨config, h1, h3, h8 (fun n hn => by simp at hn), h6, ?_⟩
  rw [h2]
  rfl

/-! ## Options -/

/-- Claim C19: each of the twelve option constructors, applied to any configuration,
sets its one field to the supplied value (`WithDisabledLimits` sets
`LimitConnection` to false) and leaves every other field unchanged. -/
theorem options_write_one_field (c : Config) :
    (∀ mode, (WithAutoVacuumMode mode c).get .AutoVacuumMode = .str mode ∧
      ∀ g, g ≠ .AutoVacuumMode → (WithAutoVacuumMode mode c).get g = c.get g) ∧
    (∀ timout, (WithBusyTimeout timout c).get .BusyTimeout = .int timout ∧
      ∀ g, g ≠ .BusyTimeout → (WithBusyTimeout timout c).get g = c.get g) ∧
    (∀ enabled, (WithCaseSensitiveLike enabled c).get .CaseSensitiveLike = .bool enabled ∧
      ∀ g, g ≠ .CaseSensitiveLike → (WithCaseSensitiveLike enabled c).get g = c.get g) ∧
    (∀ enabled, (WithDeferredForeignKeys enabled c).get .DeferForeignKeys = .bool enabled ∧
      ∀ g, g ≠ .DeferForeignKeys → (WithDeferredForeignKeys enabled c).get g = c.get g) ∧
    ((WithDisabledLimits c).get .LimitConnection = .bool false ∧
      ∀ g, g ≠ .LimitConnection → (WithDisabledLimits c).get g = c.get g) ∧
    (∀ driver, (WithDriver driver c).get .Driver = .str driver ∧
      ∀ g, g ≠ .Driver → (WithDriver driver c).get g = c.get g) ∧
    (∀ name, (WithDriverName name c).get .DriverName = .str name ∧
      ∀ g, g ≠ .DriverName → (WithDriverName name c).get g = c.get g) ∧
    (∀ enabled, (WithForeignKeySupport enabled c).get .ForeignKey = .bool enabled ∧
      ∀ g, g ≠ .ForeignKey → (WithForeignKeySupport enabled c).get g = c.get g) ∧
    (∀ mode, (WithJournalMode mode c).get .JournalMode = .str mode ∧
      ∀ g, g ≠ .JournalMode → (WithJournalMode mode c).get g = c.get g) ∧
    (∀ limit, (WithJournalSizeLimit limit c).get .JournalSizeLimit = .int limit ∧
      ∀ g, g ≠ .JournalSizeLimit → (WithJournalSizeLimit limit c).get g = c.get g) ∧
    (∀ dbPath, (WithPath dbPath c).get .Path = .str dbPath ∧
      ∀ g, g ≠ .Path → (WithPath dbPath c).get g = c.get g) ∧
    (∀ sync, (WithSyncMode sync c).get .SyncMode = .str sync ∧
      ∀ g, g ≠ .SyncMode → (WithSyncMode sync c).get g = c.get g) := by
  refine ⟨?_, ?_, ?_, ?_, ?_, ?_, ?_, ?_, ?_, ?_, ?_, ?_⟩ <;>
    first
    | exact ⟨rfl, fun g hg => by cases g <;> first | rfl | exact absurd rfl hg⟩
    | exact fun v => ⟨rfl, fun g hg => by cases g <;> first | rfl | exact absurd rfl hg⟩

/-- Claim C19 on the baseline configuration, for `WithBusyTimeout(100)` and
`WithDisabledLimits()`. -/
theorem options_write_one_field_witness :
    (WithBusyTimeout 100 newConfig).BusyTimeout = 100 ∧
      (WithBusyTimeout 100 newConfig).get .JournalMode = .str "WAL" ∧
      (WithDisabledLimits newConfig).get .LimitConnection = .bool false ∧
      (WithDisabledLimits newConfig).get .BusyTimeout = .int 4000 :=
  ⟨FieldValue.int.inj ((options_write_one_field newConfig).2.1 100).1,
   ((options_write_one_field newConfig).2.1 100).2 .JournalMode (by decide),
   (options_write_one_field newConfig).2.2.2.2.1.1,
   (options_write_one_field newConfig).2.2.2.2.1.2 .BusyTimeout (by decide)⟩

/-- Claim C20, as stated, fails: the type `Option` admits options written by the
caller, and with one that copies the path into the driver name as `mid`, applying
`WithPath(a)`, `mid`, `WithPath(b)` differs from applying `mid`, `WithPath(b)`. -/
theorem caller_option_breaks_last_write :
    (optionRunner newConfig
        [WithPath "file:a.db", copyPathToDriverName, WithPath "file:b.db"]).DriverName =
      "file:a.db" ∧
    (optionRunner newConfig [copyPathToDriverName, WithPath "file:b.db"]).DriverName = "" ∧
    optionRunner newConfig [WithPath "file:a.db", copyPathToDriverName, WithPath "file:b.db"] ≠
      optionRunner newConfig [copyPathToDriverName, WithPath "file:b.db"] := by
  decide

/-- Claim C20, amended: for every configuration `c`, every list `mid` of the package's
options and every two options `wa` and `wb` of the package that write the same
field, applying `wa`, then `mid`, then `wb` gives the same configuration as
applying `mid` and then `wb`. In particular `buildConfig(WithDriver(d),
WithBusyTimeout(a), WithBusyTimeout(b))` returns what `buildConfig(WithDriver(d),
WithBusyTimeout(b))` returns, with `BusyTimeout = b` when it succeeds. -/
theorem last_write_wins_package_options (c : Config) (mid : List PkgOption) (wa wb : PkgOption)
    (hX : wa.field = wb.field) :
    optionRunner c ((wa :: mid ++ [wb]).map PkgOption.toOption) =
        optionRunner c ((mid ++ [wb]).map PkgOption.toOption) ∧
    ∀ (drivers : List String) (d : Driver) (a b : Int),
      buildConfig drivers [WithDriver d, WithBusyTimeout a, WithBusyTimeout b] =
        buildConfig drivers [WithDriver d, WithBusyTimeout b] ∧
      ∀ config,
        buildConfig drivers [WithDriver d, WithBusyTimeout a, WithBusyTimeout b] = .ok config →
        config.BusyTimeout = b := by
  constructor
  · simp only [List.map_cons, List.map_append, List.map_nil]
    apply optionRunner_last_write wb.field
    · intro c g hg
      exact PkgOption.toOption_frame wa c g (hX ▸ hg)
    · exact PkgOption.toOption_overwrite wb
  · intro drivers d a b
    refine ⟨rfl, ?_⟩
    intro config h
    obtain ⟨_, d', rfl, _, _⟩ := buildConfig_ok_inv drivers _ config h
    rw [dsnStep_BusyTimeout, driverNameStep_BusyTimeout]
    exact defaultPathStep_BusyTimeout _

/-- Claim C20, amended, on two writes of the busy timeout around `WithDriver` and
`WithPath`, and on `buildConfig` with the mattn driver. -/
theorem last_write_wins_package_options_witness :
    optionRunner newConfig
        [WithBusyTimeout 1, WithDriver DriverMattn, WithPath "file:data.db", WithBusyTimeout 2] =
      optionRunner newConfig [WithDriver DriverMattn, WithPath "file:data.db", WithBusyTimeout 2] ∧
    (∃ config,
      buildConfig [] [WithDriver DriverMattn, WithBusyTimeout 1, WithBusyTimeout 2] =
        .ok config ∧
      config.BusyTimeout = 2 ∧
      config.DSN = ":memory?_timeout=2&_fk=true&_journal=WAL&_sync=1") :=
  ⟨(last_write_wins_package_options newConfig [.withDriver DriverMattn, .withPath "file:data.db"] (.withBusyTimeout 1)
      (.withBusyTimeout 2) rfl).1,
   ⟨_, rfl,
    ((last_write_wins_package_options newConfig [] (.withBusyTimeout 1) (.withBusyTimeout 2) rfl).2 [] DriverMattn 1 2).2 _
      rfl,
    rfl⟩⟩

/-! ## Lemmas on driver detection, the facade and the parameter counts -/

theorem detectDriver_eq_pair (L : List String) :
    detectDriver L =
      match detectDriverPair L with
      | (d, none) => .ok d
      | (_, some err) => .error err := by
  induction L with
  | nil => rfl
  | cons d ds ih =>
    unfold detectDriver detectDriverPair
    split_ifs
    · rfl
    · rfl
    · exact ih

theorem detectDriverPair_eq_find (L : List String) :
    detectDriverPair L =
      match L.find? (fun d => d = DriverNameModernc ∨ d = DriverNameMattn) with
      | none => ("", some ErrCantDetectDriver)
      | some d => (if d = DriverNameModernc then DriverModernc else DriverMattn, none) := by
  induction L with
  | nil => rfl
  | cons d ds ih =>
    unfold detectDriverPair
    rw [List.find?_cons]
    have hne : DriverNameMattn ≠ DriverNameModernc := by decide
    by_cases h1 : d = DriverNameModernc
    · simp [h1]
    · by_cases h2 : d = DriverNameMattn
      · simp [h2, hne]
      · simp only [h1, h2, if_false, or_self, decide_False]
        exact ih

theorem detectDriverPair_fails_iff (L : List String) :
    detectDriverPair L = ("", some ErrCantDetectDriver) ↔
      DriverNameModernc ∉ L ∧ DriverNameMattn ∉ L := by
  induction L with
  | nil => simp [detectDriverPair]
  | cons d ds ih =>
    unfold detectDriverPair
    have hne : DriverNameMattn ≠ DriverNameModernc := by decide
    by_cases h1 : d = DriverNameModernc
    · simp [h1]
    · by_cases h2 : d = DriverNameMattn
      · simp [h2, hne]
      · simp only [h1, h2, if_false, ih, List.mem_cons, not_or]
        constructor
        · rintro ⟨ha, hb⟩
          exact ⟨⟨fun e => h1 e.symm, ha⟩, ⟨fun e => h2 e.symm, hb⟩⟩
        · rintro ⟨⟨_, ha⟩, ⟨_, hb⟩⟩
          exact ⟨ha, hb⟩

theorem detectDriverPair_error (L : List String) (d : Driver) (e : GoError)
    (h : detectDriverPair L = (d, some e)) : d = "" ∧ e = ErrCantDetectDriver := by
  induction L with
  | nil =>
    simp only [detectDriverPair, Prod.mk.injEq, Option.some.injEq] at h
    exact ⟨h.1.symm, h.2.symm⟩
  | cons x xs ih =>
    unfold detectDriverPair at h
    split_ifs at h
    · simp at h
    · simp at h
    · exact ih h

theorem detectDriver_of_sorted (L : List String) (hs : L.Pairwise (fun a b => a ≤ b))
    (h1 : "sqlite" ∈ L) (h2 : "sqlite3" ∈ L) : detectDriver L = .ok DriverModernc := by
  induction L with
  | nil => cases h1
  | cons d ds ih =>
    unfold detectDriver
    by_cases hd : d = DriverNameModernc
    · rw [if_pos hd]
    · rw [if_neg hd]
      by_cases hm : d = DriverNameMattn
      · exfalso
        have hmem : "sqlite" ∈ ds := by
          rcases List.mem_cons.mp h1 with e | e
          · exact absurd e.symm hd
          · exact e
        have hle : d ≤ "sqlite" := (List.pairwise_cons.mp hs).1 _ hmem
        rw [hm] at hle
        exact absurd (String.le_iff_toList_le.mp hle) (by decide)
      · rw [if_neg hm]
        apply ih (List.pairwise_cons.mp hs).2
        · rcases List.mem_cons.mp h1 with e | e
          · exact absurd e.symm hd
          · exact e
        · rcases List.mem_cons.mp h2 with e | e
          · exact absurd e.symm hm
          · exact e

theorem pairwise_le_of_data (L : List String)
    (h : L.Pairwise (fun a b => a.data ≤ b.data)) : L.Pairwise (fun a b => a ≤ b) :=
  h.imp (fun hab => String.le_iff_toList_le.mpr hab)

theorem connect_of_exec_error (drivers : List String) (openFunc : sqlOpenFunc)
    (opts : List ConfigOption) (calls : List DBCall) (config : Config) (db : DB) (e : GoError)
    (hc : buildConfig drivers opts = .ok config)
    (ho : openFunc config.DriverName config.DSN = .ok db)
    (hp : db.Ping calls = none)
    (hj : config.JournalSizeLimit > 0)
    (he : db.Exec (calls ++ [.Ping] ++ limitCalls config) (journalSizeLimitQuery config) =
      some e) :
    connect drivers openFunc opts calls =
      ((none, some e),
        calls ++ [.Ping] ++ limitCalls config ++ [.Exec (journalSizeLimitQuery config)]) := by
  unfold connect
  unfold limitCalls journalSizeLimitQuery at *
  simp only [hc, ho, hp, hj, if_true]
  cases hl : config.LimitConnection
  · simp only [hl, Bool.false_eq_true, if_false, List.append_nil] at he ⊢
    rw [he]
  · simp only [hl, if_true] at he ⊢
    rw [he]

theorem driverNameStep_JournalSizeLimit (c : Config) :
    (driverNameStep c).JournalSizeLimit = c.JournalSizeLimit := by
  unfold driverNameStep
  split_ifs <;> rfl

theorem dsnStep_JournalSizeLimit (c : Config) :
    (dsnStep c).JournalSizeLimit = c.JournalSizeLimit := by
  unfold dsnStep
  split_ifs <;> rfl

theorem defaultPathStep_JournalSizeLimit (c : Config) :
    (defaultPathStep c).JournalSizeLimit = c.JournalSizeLimit := by
  unfold defaultPathStep
  split <;> rfl

/-- The options of the package keep both integers non-negative when the values they
carry are non-negative. -/
theorem optionRunner_pkg_nonneg (opts : List PkgOption) (c : Config)
    (hb : ∀ n, PkgOption.withBusyTimeout n ∈ opts → 0 ≤ n)
    (hj : ∀ n, PkgOption.withJournalSizeLimit n ∈ opts → 0 ≤ n)
    (hc : 0 ≤ c.BusyTimeout ∧ 0 ≤ c.JournalSizeLimit) :
    0 ≤ (optionRunner c (opts.map PkgOption.toOption)).BusyTimeout ∧
      0 ≤ (optionRunner c (opts.map PkgOption.toOption)).JournalSizeLimit := by
  induction opts generalizing c with
  | nil => exact hc
  | cons p opts ih =>
    rw [List.map_cons, optionRunner_cons]
    apply ih _ (fun n hn => hb n (List.mem_cons_of_mem _ hn))
      (fun n hn => hj n (List.mem_cons_of_mem _ hn))
    cases p with
    | withBusyTimeout n => exact ⟨hb n (List.mem_cons_self _ _), hc.2⟩
    | withJournalSizeLimit n => exact ⟨hc.1, hj n (List.mem_cons_self _ _)⟩
    | _ => exact hc

theorem intercalate_go_eq_foldl (acc sep : String) (rest : List String) :
    String.intercalate.go acc sep rest = rest.foldl (fun s p => s ++ (sep ++ p)) acc := by
  induction rest generalizing acc with
  | nil => rfl
  | cons p rest ih =>
    rw [String.intercalate.go, ih, List.foldl_cons, String.append_assoc]

theorem foldl_append_left (pre acc : String) (rest : List String) :
    rest.foldl (fun s p => s ++ ("&" ++ p)) (pre ++ acc) =
      pre ++ rest.foldl (fun s p => s ++ ("&" ++ p)) acc := by
  induction rest generalizing acc with
  | nil => rfl
  | cons p rest ih => rw [List.foldl_cons, List.foldl_cons, String.append_assoc, ih]

/-- A non-empty parameter list is joined with `&` behind `path?`. -/
theorem buildDSN_cons_join (path p0 : String) (rest : List String) :
    buildDSN path (p0 :: rest) = path ++ "?" ++ stringsJoin (p0 :: rest) "&" := by
  rw [buildDSN_cons, stringsJoin, String.intercalate, intercalate_go_eq_foldl,
    ← String.append_assoc, foldl_append_left]

theorem utf8ByteSize_append (s t : String) :
    (s ++ t).utf8ByteSize = s.utf8ByteSize + t.utf8ByteSize := by
  have h : s ++ t = ⟨s.data ++ t.data⟩ := String.ext (String.data_append s t)
  rw [h, String.utf8ByteSize_mk, String.utf8Len_append]
  rfl

theorem length_foldl (rest : List String) (acc : String) :
    (rest.foldl (fun s p => s ++ ("&" ++ p)) acc).length =
      acc.length + (rest.map String.length).sum + rest.length := by
  induction rest generalizing acc with
  | nil => simp
  | cons p rest ih =>
    rw [List.foldl_cons, ih]
    simp only [String.length_append, List.map_cons, List.sum_cons, List.length_cons]
    have : "&".length = 1 := rfl
    omega

theorem utf8ByteSize_foldl (rest : List String) (acc : String) :
    (rest.foldl (fun s p => s ++ ("&" ++ p)) acc).utf8ByteSize =
      acc.utf8ByteSize + (rest.map String.utf8ByteSize).sum + rest.length := by
  induction rest generalizing acc with
  | nil => simp
  | cons p rest ih =>
    rw [List.foldl_cons, ih]
    simp only [utf8ByteSize_append, List.map_cons, List.sum_cons, List.length_cons]
    have : "&".utf8ByteSize = 1 := rfl
    omega

theorem errorsIs_invalid_path_error (msg : String) :
    errorsIs (.wrapf msg ErrInvalidPath) ErrInvalidPath = true ∧
      errorsIs (.wrapf msg ErrInvalidPath) ErrCantDetectDriver = false := by
  constructor
  · simp [errorsIs, ErrInvalidPath]
  · simp [errorsIs, ErrInvalidPath, ErrCantDetectDriver]

theorem detectDriver_error_inv (drivers : List String) (e : GoError)
    (h : detectDriver drivers = .error e) :
    e = ErrCantDetectDriver ∧ "sqlite" ∉ drivers ∧ "sqlite3" ∉ drivers := by
  induction drivers with
  | nil =>
    cases h
    exact ⟨rfl, by simp, by simp⟩
  | cons d ds ih =>
    unfold detectDriver at h
    split_ifs at h with h1 h2
    obtain ⟨he, ha, hb⟩ := ih h
    refine ⟨he, ?_, ?_⟩
    · intro hm
      rcases List.mem_cons.mp hm with e1 | e1
      · exact h1 e1.symm
      · exact ha e1
    · intro hm
      rcases List.mem_cons.mp hm with e1 | e1
      · exact h2 e1.symm
      · exact hb e1

theorem length_ite_singleton {α : Type} (b : Prop) [Decidable b] (x : α) :
    (if b then [x] else []).length = if b then 1 else 0 := by
  split <;> rfl

theorem mattnParams_length (c : Config) :
    (mattnParams c).length =
      (if c.AutoVacuumMode ≠ AutoVacuumDefault ∧ AutoVacuumMode.Int c.AutoVacuumMode ≠ -99 then 1
        else 0) +
      ((if c.BusyTimeout > 0 then 1 else 0) +
      ((if c.CaseSensitiveLike = true then 1 else 0) +
      ((if c.ForeignKey = true then
          "_fk" :: (if c.DeferForeignKeys = true then ["defer_foreign_keys"] else [])
        else []).length +
      ((if c.JournalMode ≠ JournalDefault then 1 else 0) +
      (if c.SyncMode ≠ SyncDefault ∧ SyncMode.Int c.SyncMode ≠ -99 then 1 else 0))))) := by
  rw [← List.length_map (mattnParams c) paramKey, mattnParams_keys]
  simp only [List.length_append, length_ite_singleton]

theorem moderncParams_length (c : Config) :
    (moderncParams c).length =
      (if c.AutoVacuumMode ≠ AutoVacuumDefault then 1 else 0) +
      ((if c.BusyTimeout > 0 then 1 else 0) +
      ((if c.CaseSensitiveLike = true then 1 else 0) +
      ((if c.ForeignKey = true then
          "foreign_keys" :: (if c.DeferForeignKeys = true then ["defer_foreign_keys"] else [])
        else []).length +
      ((if c.JournalMode ≠ JournalDefault then 1 else 0) +
      (if c.SyncMode ≠ SyncDefault then 1 else 0))))) := by
  rw [← List.length_map (moderncParams c) pragmaName, moderncParams_pragmas]
  simp only [List.length_append, length_ite_singleton]

theorem length_fk_block (a b : Prop) [Decidable a] [Decidable b] (x y x' y' : String) :
    (if a then x :: (if b then [y] else []) else []).length =
      (if a then x' :: (if b then [y'] else []) else []).length := by
  by_cases ha : a <;> by_cases hb : b <;> simp [ha, hb]

/-- The mattn compiler emits what the modernc compiler emits, less the integer-coded
fields that hold a non-empty value outside their enumeration. -/
theorem moderncParams_length_eq (c : Config) :
    (moderncParams c).length =
      (mattnParams c).length +
        (if c.AutoVacuumMode ≠ "" ∧
            c.AutoVacuumMode ∉ [AutoVacuumNone, AutoVacuumFull, AutoVacuumIncremental] then 1
          else 0) +
        (if c.SyncMode ≠ "" ∧ c.SyncMode ∉ [SyncOff, SyncNormal, SyncFull, SyncExtra] then 1
          else 0) := by
  rw [moderncParams_length, mattnParams_length,
    length_fk_block _ _ "foreign_keys" "defer_foreign_keys" "_fk" "defer_foreign_keys"]
  have ha : c.AutoVacuumMode ∉ [AutoVacuumNone, AutoVacuumFull, AutoVacuumIncremental] ↔
      AutoVacuumMode.Int c.AutoVacuumMode = -99 := by
    rw [AutoVacuumMode_Int_eq_sentinel_iff]
    simp
  have hs : c.SyncMode ∉ [SyncOff, SyncNormal, SyncFull, SyncExtra] ↔
      SyncMode.Int c.SyncMode = -99 := by
    rw [SyncMode_Int_eq_sentinel_iff]
    simp
  simp only [ha, hs]
  generalize (if c.BusyTimeout > 0 then 1 else 0 : Nat) = t
  generalize (if c.CaseSensitiveLike = true then 1 else 0 : Nat) = l
  generalize (if c.ForeignKey = true then
    "_fk" :: (if c.DeferForeignKeys = true then ["defer_foreign_keys"] else [])
    else []).length = f
  generalize (if c.JournalMode ≠ JournalDefault then 1 else 0 : Nat) = j
  by_cases h1 : c.AutoVacuumMode = "" <;>
  by_cases h2 : AutoVacuumMode.Int c.AutoVacuumMode = -99 <;>
  by_cases h3 : c.SyncMode = "" <;>
  by_cases h4 : SyncMode.Int c.SyncMode = -99 <;>
  simp [h1, h2, h3, h4, AutoVacuumDefault, SyncDefault] <;> omega

theorem mattnParams_indices (c : Config) :
    (mattnParams c).map mattnFieldIndex =
      (if c.AutoVacuumMode ≠ AutoVacuumDefault ∧ AutoVacuumMode.Int c.AutoVacuumMode ≠ -99 then
          [0] else []) ++
      ((if c.BusyTimeout > 0 then [1] else []) ++
      ((if c.CaseSensitiveLike = true then [2] else []) ++
      ((if c.ForeignKey = true then 3 :: (if c.DeferForeignKeys = true then [4] else [])
        else []) ++
      ((if c.JournalMode ≠ JournalDefault then [5] else []) ++
      (if c.SyncMode ≠ SyncDefault ∧ SyncMode.Int c.SyncMode ≠ -99 then [6] else []))))) := by
  have h : (mattnParams c).map mattnFieldIndex =
      ((mattnParams c).map paramKey).map (fun k => mattnFieldOrder.indexOf k) := by
    rw [List.map_map]
    rfl
  have e0 : mattnFieldOrder.indexOf "_auto_vacuum" = 0 := by decide
  have e1 : mattnFieldOrder.indexOf "_timeout" = 1 := by decide
  have e2 : mattnFieldOrder.indexOf "_case_sensitive_like" = 2 := by decide
  have e3 : mattnFieldOrder.indexOf "_fk" = 3 := by decide
  have e4 : mattnFieldOrder.indexOf "defer_foreign_keys" = 4 := by decide
  have e5 : mattnFieldOrder.indexOf "_journal" = 5 := by decide
  have e6 : mattnFieldOrder.indexOf "_sync" = 6 := by decide
  rw [h, mattnParams_keys]
  simp only [List.map_append, apply_ite (List.map fun k => mattnFieldOrder.indexOf k),
    List.map_cons, List.map_nil, e0, e1, e2, e3, e4, e5, e6]

theorem moderncParams_indices (c : Config) :
    (moderncParams c).map moderncFieldIndex =
      (if c.AutoVacuumMode ≠ AutoVacuumDefault then [0] else []) ++
      ((if c.BusyTimeout > 0 then [1] else []) ++
      ((if c.CaseSensitiveLike = true then [2] else []) ++
      ((if c.ForeignKey = true then 3 :: (if c.DeferForeignKeys = true then [4] else [])
        else []) ++
      ((if c.JournalMode ≠ JournalDefault then [5] else []) ++
      (if c.SyncMode ≠ SyncDefault then [6] else []))))) := by
  have h : (moderncParams c).map moderncFieldIndex =
      ((moderncParams c).map pragmaName).map (fun k => moderncFieldOrder.indexOf k) := by
    rw [List.map_map]
    rfl
  have e0 : moderncFieldOrder.indexOf "auto_vacuum" = 0 := by decide
  have e1 : moderncFieldOrder.indexOf "busy_timeout" = 1 := by decide
  have e2 : moderncFieldOrder.indexOf "case_sensitive_like" = 2 := by decide
  have e3 : moderncFieldOrder.indexOf "foreign_keys" = 3 := by decide
  have e4 : moderncFieldOrder.indexOf "defer_foreign_keys" = 4 := by decide
  have e5 : moderncFieldOrder.indexOf "journal_mode" = 5 := by decide
  have e6 : moderncFieldOrder.indexOf "synchronous" = 6 := by decide
  rw [h, moderncParams_pragmas]
  simp only [List.map_append, apply_ite (List.map fun k => moderncFieldOrder.indexOf k),
    List.map_cons, List.map_nil, e0, e1, e2, e3, e4, e5, e6]

/-! ## Driver detection -/

/-- Claim C21: over the list `L` of registered names in enumeration order,
`detectDriver` fails, with `ErrCantDetectDriver` and the empty driver, if and only
if neither `sqlite` nor `sqlite3` occurs in `L`; otherwise it returns without
error the driver of the first element of `L` that is one of the two names,
`DriverModernc` for `sqlite` and `DriverMattn` for `sqlite3`. -/
theorem detectDriver_first_known_name (L : List String) :
    (detectDriverPair L = ("", some ErrCantDetectDriver) ↔ "sqlite" ∉ L ∧ "sqlite3" ∉ L) ∧
    (detectDriver L = .error ErrCantDetectDriver ↔ "sqlite" ∉ L ∧ "sqlite3" ∉ L) ∧
    (∀ e, detectDriver L = .error e → e = ErrCantDetectDriver) ∧
    detectDriverPair L =
      (match L.find? (fun d => d = "sqlite" ∨ d = "sqlite3") with
      | none => ("", some ErrCantDetectDriver)
      | some d => (if d = "sqlite" then DriverModernc else DriverMattn, none)) ∧
    detectDriver L =
      (match L.find? (fun d => d = "sqlite" ∨ d = "sqlite3") with
      | none => .error ErrCantDetectDriver
      | some d => .ok (if d = "sqlite" then DriverModernc else DriverMattn)) := by
  have hpair :
      detectDriverPair L =
        (match L.find? (fun d => d = "sqlite" ∨ d = "sqlite3") with
        | none => ("", some ErrCantDetectDriver)
        | some d => (if d = "sqlite" then DriverModernc else DriverMattn, none)) :=
    detectDriverPair_eq_find L
  have hfail :
      detectDriverPair L = ("", some ErrCantDetectDriver) ↔ "sqlite" ∉ L ∧ "sqlite3" ∉ L :=
    detectDriverPair_fails_iff L
  have hrel := detectDriver_eq_pair L
  refine ⟨hfail, ?_, ?_, hpair, ?_⟩
  · rw [← hfail, hrel]
    constructor
    · intro h
      rcases hp : detectDriverPair L with ⟨d, _ | e⟩
      · rw [hp] at h
        cases h
      · rw [hp] at h
        obtain ⟨rfl, rfl⟩ := detectDriverPair_error L d e hp
        rfl
    · intro h
      rw [h]
  · intro e h
    rw [hrel] at h
    rcases hp : detectDriverPair L with ⟨d, _ | e'⟩
    · rw [hp] at h
      cases h
    · rw [hp] at h
      obtain ⟨_, rfl⟩ := detectDriverPair_error L d e' hp
      cases h
      rfl
  · rw [hrel, hpair]
    generalize L.find? (fun d => d = "sqlite" ∨ d = "sqlite3") = r
    cases r <;> rfl

/-- Claim C21 on a registry without a known name, on one where `sqlite3` comes
first, and on the registry of the test `Detecting "modernc.org/sqlite"`. -/
theorem detectDriver_first_known_name_witness :
    detectDriverPair ["mysql", "sqlmock"] = ("", some ErrCantDetectDriver) ∧
      detectDriver ["mysql", "sqlite3", "sqlite"] = .ok DriverMattn ∧
      detectDriver ["sqlite"] = .ok DriverModernc :=
  ⟨(detectDriver_first_known_name ["mysql", "sqlmock"]).1.mpr (by decide),
   (detectDriver_first_known_name ["mysql", "sqlite3", "sqlite"]).2.2.2.2.trans rfl,
   (detectDriver_first_known_name ["sqlite"]).2.2.2.2.trans rfl⟩

/-- Claim C22: for every registry enumeration in ascending order of names that
contains both `sqlite` and `sqlite3`, `detectDriver` returns `DriverModernc`,
whatever other names are registered. -/
theorem detectDriver_sorted_registry (L : List String) (hs : L.Pairwise (fun a b => a ≤ b))
    (h1 : "sqlite" ∈ L) (h2 : "sqlite3" ∈ L) :
    detectDriver L = .ok DriverModernc ∧ detectDriverPair L = (DriverModernc, none) := by
  have h := detectDriver_of_sorted L hs h1 h2
  refine ⟨h, ?_⟩
  rw [detectDriver_eq_pair] at h
  rcases hp : detectDriverPair L with ⟨d, _ | e⟩
  · rw [hp] at h
    cases h
    rfl
  · rw [hp] at h
    cases h

/-- Claim C22 on the sorted registry `mysql`, `sqlite`, `sqlite3`, `sqlmock`. -/
theorem detectDriver_sorted_registry_witness :
    ["mysql", "sqlite", "sqlite3", "sqlmock"].Pairwise (fun a b => a ≤ b) ∧
      detectDriver ["mysql", "sqlite", "sqlite3", "sqlmock"] = .ok DriverModernc :=
  ⟨pairwise_le_of_data _ (by decide),
   (detectDriver_sorted_registry ["mysql", "sqlite", "sqlite3", "sqlmock"] (pairwise_le_of_data _ (by decide))
    (by decide) (by decide)).1⟩

/-! ## Lifecycle facade -/

/-- Claim C23: `ShutdownContext` executes `PRAGMA optimize;` and then closes. If the
statement fails with `e`, `e` is returned and `Close` is not called; if it succeeds,
`Close` is called once, after the statement, and its result is returned. -/
theorem shutdown_fails_fast (db : DB) (calls : List DBCall) :
    (∀ e, db.Exec calls "PRAGMA optimize;" = some e →
      ShutdownContext db calls = (some e, calls ++ [.Exec "PRAGMA optimize;"]) ∧
      (ShutdownContext db calls).2.count .Close = calls.count .Close) ∧
    (db.Exec calls "PRAGMA optimize;" = none →
      ShutdownContext db calls =
        (db.Close (calls ++ [.Exec "PRAGMA optimize;"]),
          calls ++ [.Exec "PRAGMA optimize;"] ++ [.Close]) ∧
      (ShutdownContext db calls).2.count .Close = calls.count .Close + 1) := by
  constructor
  · intro e he
    have h : ShutdownContext db calls = (some e, calls ++ [.Exec "PRAGMA optimize;"]) := by
      simp [ShutdownContext, OptimizeContext, he]
    refine ⟨h, ?_⟩
    rw [h]
    simp
  · intro he
    have h : ShutdownContext db calls =
        (db.Close (calls ++ [.Exec "PRAGMA optimize;"]),
          calls ++ [.Exec "PRAGMA optimize;"] ++ [.Close]) := by
      simp only [ShutdownContext, OptimizeContext, he]
      cases db.Close (calls ++ [.Exec "PRAGMA optimize;"]) <;> rfl
    refine ⟨h, ?_⟩
    rw [h]
    simp

/-- Claim C23 on the mocks of `TestShutdown_WithErrorInOptimize` and
`TestShutdown_WithErrorOnClose`. -/
theorem shutdown_fails_fast_witness :
    ShutdownContext dbExecFails [] = (some errUnitTest, [.Exec "PRAGMA optimize;"]) ∧
      ShutdownContext dbCloseFails [] =
        (some errUnitTest, [.Exec "PRAGMA optimize;", .Close]) :=
  ⟨((shutdown_fails_fast dbExecFails []).1 errUnitTest rfl).1, ((shutdown_fails_fast dbCloseFails []).2 rfl).1⟩

/-- Claim C24, as stated, fails: with the options and the mock of
`Test_connect_JournalSizeLimitError`, where open and ping succeed, the limit is
positive and the statement fails with `errUnitTest`, `connect` returns the pair
`(nil, errUnitTest)` and not the opened handle with `errUnitTest`. -/
theorem connect_returns_nil_on_pragma_error :
    (∃ config, buildConfig [] sqlmockOptions = .ok config ∧ config.JournalSizeLimit > 0) ∧
    dbExecFails.Ping [] = none ∧
    (connect [] (fun _ _ => .ok dbExecFails) sqlmockOptions []).1 = (none, some errUnitTest) ∧
    (connect [] (fun _ _ => .ok dbExecFails) sqlmockOptions []).1 ≠
      (some dbExecFails, some errUnitTest) := by
  refine ⟨⟨_, rfl, by decide⟩, rfl, rfl, ?_⟩
  intro h
  have h1 : (connect [] (fun _ _ => .ok dbExecFails) sqlmockOptions []).1 =
      (none, some errUnitTest) := rfl
  rw [h1] at h
  cases h

/-- Claim C24, amended: when open and ping succeed, `JournalSizeLimit > 0` and the
statement `PRAGMA journal_size_limit = <n>;` fails with `e`, `connect` reports `e`
and returns no connection: its result is the pair `(nil, e)`. The calls it made on
the handle are the ping, the pool limits and the statement; it does not close. -/
theorem connect_pragma_error_result (drivers : List String) (openFunc : sqlOpenFunc)
    (opts : List ConfigOption) (calls : List DBCall) (config : Config) (db : DB) (e : GoError)
    (hc : buildConfig drivers opts = .ok config)
    (ho : openFunc config.DriverName config.DSN = .ok db)
    (hp : db.Ping calls = none)
    (hj : config.JournalSizeLimit > 0)
    (he : db.Exec (calls ++ [.Ping] ++ limitCalls config)
      ("PRAGMA journal_size_limit = " ++ Sprintf_d config.JournalSizeLimit ++ ";") = some e) :
    (connect drivers openFunc opts calls).1 = (none, some e) ∧
    (connect drivers openFunc opts calls).1 ≠ (some db, some e) ∧
    (connect drivers openFunc opts calls).2 =
      calls ++ [.Ping] ++ limitCalls config ++
        [.Exec ("PRAGMA journal_size_limit = " ++ Sprintf_d config.JournalSizeLimit ++ ";")] := by
  have h := connect_of_exec_error drivers openFunc opts calls config db e hc ho hp hj he
  rw [h]
  refine ⟨rfl, ?_, rfl⟩
  intro hcon
  cases hcon

/-- Claim C24, amended, on the options and the mock of
`Test_connect_JournalSizeLimitError`. -/
theorem connect_pragma_error_result_witness :
    (connect [] (fun _ _ => .ok dbExecFails) sqlmockOptions []).1 = (none, some errUnitTest) ∧
    (connect [] (fun _ _ => .ok dbExecFails) sqlmockOptions []).2 =
      [.Ping, .SetMaxIdleConns 1, .SetMaxOpenConns 1, .SetConnMaxLifetime 0,
        .SetConnMaxIdleTime 0, .Exec "PRAGMA journal_size_limit = 100000000;"] :=
  ⟨(connect_pragma_error_result [] (fun _ _ => .ok dbExecFails) sqlmockOptions [] _ dbExecFails errUnitTest rfl rfl rfl
      (by decide) rfl).1,
   (connect_pragma_error_result [] (fun _ _ => .ok dbExecFails) sqlmockOptions [] _ dbExecFails errUnitTest rfl rfl rfl
      (by decide) rfl).2.2.trans rfl⟩

/-! ## Lemmas on options that keep state of their own -/

theorem buildConfig_eq_buildConfigFrom (drivers : List String) (opts : List ConfigOption) :
    buildConfig drivers opts = buildConfigFrom drivers (optionRunner newConfig opts) := rfl

theorem buildConfigFrom_eq_buildConfig (drivers : List String) (c : Config) :
    buildConfigFrom drivers c = buildConfig drivers [fun _ => c] := rfl

theorem optionRunnerS_stateless {σ : Type} (opts : List ConfigOption) (c : Config) (s : σ) :
    optionRunnerS c (opts.map ConfigOption.stateless) s = (optionRunner c opts, s) := by
  induction opts generalizing c with
  | nil => rfl
  | cons o opts ih =>
    rw [List.map_cons, optionRunner_cons]
    exact ih (o c)

/-- Over options without state of their own a run is `buildConfig`, and leaves the
state as it was. -/
theorem buildConfigS_stateless {σ : Type} (drivers : List String) (opts : List ConfigOption)
    (s : σ) :
    buildConfigS drivers (opts.map ConfigOption.stateless) s = (buildConfig drivers opts, s) := by
  unfold buildConfigS
  rw [optionRunnerS_stateless, buildConfig_eq_buildConfigFrom]

theorem stateBlind_stateless {σ : Type} (opt : ConfigOption) :
    StateBlind (opt.stateless : StatefulOption σ) :=
  fun _ _ _ => rfl

/-- The loop over state-blind options leaves the same configuration whatever state
it starts in. -/
theorem optionRunnerS_stateBlind {σ : Type} (opts : List (StatefulOption σ))
    (h : ∀ o ∈ opts, StateBlind o) (c : Config) (s s' : σ) :
    (optionRunnerS c opts s).1 = (optionRunnerS c opts s').1 := by
  induction opts generalizing c s s' with
  | nil => rfl
  | cons o opts ih =>
    have ho := h o (List.mem_cons_self o opts) s s' c
    have step : ∀ t : σ, optionRunnerS c (o :: opts) t = optionRunnerS (o t c).1 opts (o t c).2 :=
      fun _ => rfl
    rw [step s, step s', ho]
    exact ih (fun o' ho' => h o' (List.mem_cons_of_mem o ho')) _ _ _

/-- The compilers read the eight fields of `dsnFields` and nothing else. -/
theorem dsn_reads_dsnFields (c1 c2 : Config) (h : ∀ g ∈ dsnFields, c1.get g = c2.get g) :
    buildMattnDSN c1 = buildMattnDSN c2 ∧ buildModerncDSN c1 = buildModerncDSN c2 := by
  have h1 := h .Path (by decide)
  have h2 := h .AutoVacuumMode (by decide)
  have h3 := h .BusyTimeout (by decide)
  have h4 := h .CaseSensitiveLike (by decide)
  have h5 := h .DeferForeignKeys (by decide)
  have h6 := h .ForeignKey (by decide)
  have h7 := h .JournalMode (by decide)
  have h8 := h .SyncMode (by decide)
  simp only [Config.get, FieldValue.str.injEq, FieldValue.int.injEq, FieldValue.bool.injEq]
    at h1 h2 h3 h4 h5 h6 h7 h8
  constructor
  · simp only [buildMattnDSN, mattnParams_blocks, h1, h2, h3, h4, h5, h6, h7, h8]
  · simp only [buildModerncDSN, moderncParams_blocks, h1, h2, h3, h4, h5, h6, h7, h8]

/-- The DSN of a configuration the build returns is the rendering of that very
configuration by the compiler of its driver, for a known driver. -/
theorem buildConfigFrom_DSN (drivers : List String) (c config : Config)
    (h : buildConfigFrom drivers c = .ok config) :
    (config.Driver = DriverModernc → config.DSN = buildModerncDSN config) ∧
      (config.Driver = DriverMattn → config.DSN = buildMattnDSN config) := by
  rw [buildConfigFrom_eq_buildConfig] at h
  obtain ⟨_, d, rfl, _, _⟩ := buildConfig_ok_inv drivers _ config h
  generalize driverNameStep
    { defaultPathStep (optionRunner newConfig [fun _ => c]) with Driver := d } = x
  have hframe : ∀ g ∈ dsnFields, (dsnStep x).get g = x.get g := by
    intro g hg
    unfold dsnStep
    split_ifs <;>
      (simp only [dsnFields, List.mem_cons, List.mem_singleton, List.not_mem_nil, or_false] at hg
       rcases hg with e | e | e | e | e | e | e | e <;> subst e <;> rfl)
  have hsame := dsn_reads_dsnFields (dsnStep x) x hframe
  rw [dsnStep_Driver, hsame.1, hsame.2, dsnStep_DSN]
  constructor
  · intro hd
    rw [if_pos hd]
  · intro hd
    have hd' : x.Driver ≠ DriverModernc := by
      rw [hd]
      decide
    rw [if_neg hd', if_pos hd]

/-! ## Invariants of the configuration and of the DSN -/

/-- Claim C25, as stated, fails: `buildConfig` over `WithDriver(DriverMattn)`,
`WithBusyTimeout(-5)`, `WithJournalSizeLimit(-1)` succeeds and returns both
negative values; the DSN carries no busy-timeout parameter. -/
theorem negative_limits_are_kept :
    ∃ config,
      buildConfig []
          ([PkgOption.withDriver DriverMattn, PkgOption.withBusyTimeout (-5),
            PkgOption.withJournalSizeLimit (-1)].map PkgOption.toOption) = .ok config ∧
        config.BusyTimeout = -5 ∧ config.JournalSizeLimit = -1 ∧
        config.DSN = ":memory?_fk=true&_journal=WAL&_sync=1" :=
  ⟨_, rfl, rfl, rfl, rfl⟩

/-- Claim C25, amended: for every list of the package's options in which every
`WithBusyTimeout` and every `WithJournalSizeLimit` carries a non-negative value,
every configuration a successful `buildConfig` returns has a non-negative
`BusyTimeout` and a non-negative `JournalSizeLimit`. -/
theorem nonneg_limits_of_nonneg_options (drivers : List String) (opts : List PkgOption) (config : Config)
    (hb : ∀ n, PkgOption.withBusyTimeout n ∈ opts → 0 ≤ n)
    (hj : ∀ n, PkgOption.withJournalSizeLimit n ∈ opts → 0 ≤ n)
    (h : buildConfig drivers (opts.map PkgOption.toOption) = .ok config) :
    0 ≤ config.BusyTimeout ∧ 0 ≤ config.JournalSizeLimit := by
  obtain ⟨_, d, rfl, _, _⟩ := buildConfig_ok_inv drivers _ config h
  rw [dsnStep_BusyTimeout, driverNameStep_BusyTimeout, dsnStep_JournalSizeLimit,
    driverNameStep_JournalSizeLimit]
  have := optionRunner_pkg_nonneg opts newConfig hb hj (by decide)
  exact ⟨by simpa [defaultPathStep_BusyTimeout] using this.1,
    by simpa [defaultPathStep_JournalSizeLimit] using this.2⟩

/-- Claim C25, amended, on `WithDriver(DriverMattn)`, `WithBusyTimeout(100)`,
`WithJournalSizeLimit(0)`. -/
theorem nonneg_limits_of_nonneg_options_witness :
    ∃ config,
      buildConfig []
          ([PkgOption.withDriver DriverMattn, PkgOption.withBusyTimeout 100,
            PkgOption.withJournalSizeLimit 0].map PkgOption.toOption) = .ok config ∧
        0 ≤ config.BusyTimeout ∧ 0 ≤ config.JournalSizeLimit :=
  ⟨_, rfl,
    nonneg_limits_of_nonneg_options [] [PkgOption.withDriver DriverMattn, PkgOption.withBusyTimeout 100,
      PkgOption.withJournalSizeLimit 0] _
      (fun n hn => by simp at hn; omega) (fun n hn => by simp at hn; omega) rfl⟩

/-- Claim C26, as stated, fails: the type `Option` admits closures that keep state of
their own. With `n := 0` and `opt := func(c *Config) { n++; c.BusyTimeout = n }`,
the first run of `buildConfig(WithDriver(DriverMattn), opt)` returns busy timeout 1
and a DSN with `_timeout=1` and leaves `n = 1`; the second run on the same two
options returns busy timeout 2 and a DSN with `_timeout=2`. -/
theorem counting_option_breaks_determinism :
    (buildConfigS [] [(WithDriver DriverMattn).stateless, countingTimeout] 0).1.map
        (fun c => (c.BusyTimeout, c.DSN)) =
      .ok (1, ":memory?_timeout=1&_fk=true&_journal=WAL&_sync=1") ∧
    (buildConfigS [] [(WithDriver DriverMattn).stateless, countingTimeout] 0).2 = 1 ∧
    (buildConfigS [] [(WithDriver DriverMattn).stateless, countingTimeout] 1).1.map
        (fun c => (c.BusyTimeout, c.DSN)) =
      .ok (2, ":memory?_timeout=2&_fk=true&_journal=WAL&_sync=1") ∧
    (buildConfigS [] [(WithDriver DriverMattn).stateless, countingTimeout] 0).1 ≠
      (buildConfigS [] [(WithDriver DriverMattn).stateless, countingTimeout]
        (buildConfigS [] [(WithDriver DriverMattn).stateless, countingTimeout] 0).2).1 := by
  refine ⟨rfl, rfl, rfl, ?_⟩
  intro h
  have h1 : (buildConfigS [] [(WithDriver DriverMattn).stateless, countingTimeout] 0).1.map
      (fun c => c.BusyTimeout) = .ok 1 := rfl
  have h2 : (buildConfigS [] [(WithDriver DriverMattn).stateless, countingTimeout]
      (buildConfigS [] [(WithDriver DriverMattn).stateless, countingTimeout] 0).2).1.map
      (fun c => c.BusyTimeout) = .ok 2 := rfl
  rw [h, h2] at h1
  injection h1 with h1
  exact absurd h1 (by decide)

/-- Claim C26, amended. Two configurations that agree on the eight fields the
compilers read, hence any two that are equal field by field, compile to the same
DSN under `buildMattnDSN` and under `buildModerncDSN`. For a fixed registry
enumeration and a list of options none of which writes to the configuration
something that depends on state of its own, a run of `buildConfig` returns the
same configuration and DSN, or the same error, whatever state the options start
in; so does a second run after a first. Every option given as a function of the
configuration is such an option, a run over such options is `buildConfig` and
leaves the state as it was, and every `With*` option of the package is one. For
options of any kind, two successful runs that return configurations with the same
known driver and the same eight fields return the same DSN. -/
theorem dsn_deterministic_without_option_state :
    (∀ c1 c2 : Config, (∀ g ∈ dsnFields, c1.get g = c2.get g) →
      buildMattnDSN c1 = buildMattnDSN c2 ∧ buildModerncDSN c1 = buildModerncDSN c2) ∧
    (∀ (σ : Type) (drivers : List String) (opts : List (StatefulOption σ)),
      (∀ o ∈ opts, StateBlind o) →
      (∀ s s' : σ, (buildConfigS drivers opts s).1 = (buildConfigS drivers opts s').1) ∧
        ∀ s : σ, (buildConfigS drivers opts s).1 =
          (buildConfigS drivers opts (buildConfigS drivers opts s).2).1) ∧
    (∀ (σ : Type) (drivers : List String) (opts : List ConfigOption) (s : σ),
      (∀ o ∈ opts.map ConfigOption.stateless, StateBlind (o : StatefulOption σ)) ∧
        buildConfigS drivers (opts.map ConfigOption.stateless) s = (buildConfig drivers opts, s)) ∧
    (∀ (σ : Type) (p : PkgOption), StateBlind (p.toOption.stateless : StatefulOption σ)) ∧
    (∀ (σ τ : Type) (drivers1 drivers2 : List String) (opts1 : List (StatefulOption σ))
      (opts2 : List (StatefulOption τ)) (s1 : σ) (s2 : τ) (config1 config2 : Config),
      (buildConfigS drivers1 opts1 s1).1 = .ok config1 →
      (buildConfigS drivers2 opts2 s2).1 = .ok config2 →
      config1.Driver = config2.Driver →
      config1.Driver = DriverModernc ∨ config1.Driver = DriverMattn →
      (∀ g ∈ dsnFields, config1.get g = config2.get g) →
      config1.DSN = config2.DSN) := by
  refine ⟨dsn_reads_dsnFields, ?_, ?_, fun σ p => stateBlind_stateless p.toOption, ?_⟩
  · intro σ drivers opts h
    have key : ∀ s s' : σ, (buildConfigS drivers opts s).1 = (buildConfigS drivers opts s').1 := by
      intro s s'
      unfold buildConfigS
      simp only
      rw [optionRunnerS_stateBlind opts h newConfig s s']
    exact ⟨key, fun s => key s _⟩
  · intro σ drivers opts s
    refine ⟨?_, buildConfigS_stateless drivers opts s⟩
    intro o ho
    obtain ⟨f, _, rfl⟩ := List.mem_map.mp ho
    exact stateBlind_stateless f
  · intro σ τ drivers1 drivers2 opts1 opts2 s1 s2 config1 config2 h1 h2 hd hk hf
    have d1 := buildConfigFrom_DSN drivers1 _ config1 h1
    have d2 := buildConfigFrom_DSN drivers2 _ config2 h2
    rcases hk with hk | hk
    · rw [d1.1 hk, d2.1 (hd ▸ hk)]
      exact (dsn_reads_dsnFields config1 config2 hf).2
    · rw [d1.2 hk, d2.2 (hd ▸ hk)]
      exact (dsn_reads_dsnFields config1 config2 hf).1

/-- Claim C26, amended, on configurations that differ from the baseline in fields the
compilers do not read; on `WithDriver(DriverMattn)` followed by an option that
counts its calls and leaves the configuration alone, run with the counter at 0 and
at 7; and on two runs over the counting option of the counterexample that both
return busy timeout 1. -/
theorem dsn_deterministic_without_option_state_witness :
    (buildMattnDSN { newConfig with LimitConnection := false, JournalSizeLimit := 0 } =
        buildMattnDSN newConfig ∧
      buildModerncDSN { newConfig with DriverName := "sqlmock", DSN := "stale" } =
        buildModerncDSN newConfig) ∧
    ((buildConfigS [] [(WithDriver DriverMattn).stateless, countingCalls] 0).1 =
        (buildConfigS [] [(WithDriver DriverMattn).stateless, countingCalls] 7).1 ∧
      (buildConfigS [] [(WithDriver DriverMattn).stateless, countingCalls] 0).2 = 1) ∧
    (∃ config1 config2,
      (buildConfigS [] [(WithDriver DriverMattn).stateless, countingTimeout] 0).1 = .ok config1 ∧
      (buildConfigS ["sqlite3"] [countingTimeout, (WithDriverName "traced").stateless] 0).1 =
        .ok config2 ∧
      config1.DriverName ≠ config2.DriverName ∧
      config1.DSN = config2.DSN) :=
  ⟨⟨(dsn_deterministic_without_option_state.1 _ _ (by decide)).1,
    (dsn_deterministic_without_option_state.1 _ _ (by decide)).2⟩,
   ⟨(dsn_deterministic_without_option_state.2.1 Int []
      [(WithDriver DriverMattn).stateless, countingCalls]
      (fun o ho => by
        simp only [List.mem_cons, List.mem_singleton, List.not_mem_nil, or_false] at ho
        rcases ho with rfl | rfl <;> exact fun _ _ _ => rfl)).1 0 7, rfl⟩,
   ⟨_, _, rfl, rfl, by decide,
    dsn_deterministic_without_option_state.2.2.2.2 Int Int [] ["sqlite3"]
      [(WithDriver DriverMattn).stateless, countingTimeout]
      [countingTimeout, (WithDriverName "traced").stateless] 0 0 _ _ rfl rfl rfl
      (Or.inr rfl) (by decide)⟩⟩

/-- Claim C27: `buildDSN path params` is `path` when `params` is empty, and otherwise
`path`, `?` and the parameters joined with `&` in list order; its length, in bytes
and in characters, is that of the path plus those of the parameters plus the
number of parameters. -/
theorem buildDSN_join (path : String) (params : List String) :
    buildDSN path [] = path ∧
    (params ≠ [] → buildDSN path params = path ++ "?" ++ stringsJoin params "&") ∧
    (buildDSN path params).utf8ByteSize =
      path.utf8ByteSize + (params.map String.utf8ByteSize).sum + params.length ∧
    (buildDSN path params).length =
      path.length + (params.map String.length).sum + params.length := by
  refine ⟨rfl, ?_, ?_, ?_⟩
  · intro h
    cases params with
    | nil => exact absurd rfl h
    | cons p0 rest => exact buildDSN_cons_join path p0 rest
  · cases params with
    | nil => simp [buildDSN]
    | cons p0 rest =>
      rw [buildDSN_cons, utf8ByteSize_foldl]
      simp only [utf8ByteSize_append, List.map_cons, List.sum_cons, List.length_cons]
      have : "?".utf8ByteSize = 1 := rfl
      omega
  · cases params with
    | nil => simp [buildDSN]
    | cons p0 rest =>
      rw [buildDSN_cons, length_foldl]
      simp only [String.length_append, List.map_cons, List.sum_cons, List.length_cons]
      have : "?".length = 1 := rfl
      omega

/-- Claim C27 on the path `:memory`, as in `Test_buildDSN_EmptyParams`, and with
two parameters. -/
theorem buildDSN_join_witness :
    buildDSN ":memory" [] = ":memory" ∧
      buildDSN ":memory" ["_timeout=4000", "_fk=true"] = ":memory?_timeout=4000&_fk=true" ∧
      (buildDSN ":memory" ["_timeout=4000", "_fk=true"]).utf8ByteSize = 7 + (13 + 8) + 2 :=
  ⟨(buildDSN_join ":memory" []).1,
   ((buildDSN_join ":memory" ["_timeout=4000", "_fk=true"]).2.1 (by decide)).trans (by decide),
   (buildDSN_join ":memory" ["_timeout=4000", "_fk=true"]).2.2.1.trans (by decide)⟩

/-- Claim C28: `buildConfig` checks the path before it resolves the driver. For every
option list that leaves an invalid path and no driver, it returns an error that
wraps `ErrInvalidPath` and not `ErrCantDetectDriver`, whatever the registry; and
it returns `ErrCantDetectDriver` only when the path is empty or valid, no driver
is selected and the registry holds neither known name. -/
theorem path_checked_before_driver (drivers : List String) (opts : List ConfigOption) :
    ((optionRunner newConfig opts).Path ≠ "" →
      validatePath (optionRunner newConfig opts).Path ≠ none →
      (optionRunner newConfig opts).Driver = "" →
      ∃ e, buildConfig drivers opts = .error e ∧ errorsIs e ErrInvalidPath = true ∧
        errorsIs e ErrCantDetectDriver = false) ∧
    (∀ e, buildConfig drivers opts = .error e → errorsIs e ErrCantDetectDriver = true →
      ((optionRunner newConfig opts).Path = "" ∨
        validatePath (optionRunner newConfig opts).Path = none) ∧
      (optionRunner newConfig opts).Driver = "" ∧ "sqlite" ∉ drivers ∧ "sqlite3" ∉ drivers) := by
  have hfail : (optionRunner newConfig opts).Path ≠ "" →
      validatePath (optionRunner newConfig opts).Path ≠ none →
      buildConfig drivers opts =
        .error (.wrapf ("given '" ++ (optionRunner newConfig opts).Path ++
          "', invalid path provided") ErrInvalidPath) := by
    intro hp hv
    apply buildConfig_of_invalid
    rw [defaultPathStep_Path, if_neg hp]
    exact validatePath_of_rejected _ hv
  constructor
  · intro hp hv _
    exact ⟨_, hfail hp hv, (errorsIs_invalid_path_error _).1, (errorsIs_invalid_path_error _).2⟩
  · intro e he hdet
    by_cases hp : (optionRunner newConfig opts).Path = ""
    · have hv : validatePath (defaultPathStep (optionRunner newConfig opts)).Path = none := by
        rw [defaultPathStep_Path, if_pos hp]
        exact validatePath_memory
      by_cases hd : (optionRunner newConfig opts).Driver = ""
      · have hd' : (defaultPathStep (optionRunner newConfig opts)).Driver = "" := by
          rw [defaultPathStep_Driver]
          exact hd
        cases hdd : detectDriver drivers with
        | error e' =>
          obtain ⟨_, ha, hb⟩ := detectDriver_error_inv drivers e' hdd
          exact ⟨Or.inl hp, hd, ha, hb⟩
        | ok d =>
          rw [buildConfig_of_detected drivers opts d hv hd' hdd] at he
          cases he
      · have hd' : (defaultPathStep (optionRunner newConfig opts)).Driver ≠ "" := by
          rw [defaultPathStep_Driver]
          exact hd
        rw [buildConfig_of_explicit drivers opts hv hd'] at he
        cases he
    · by_cases hval : validatePath (optionRunner newConfig opts).Path = none
      · have hv : validatePath (defaultPathStep (optionRunner newConfig opts)).Path = none := by
          rw [defaultPathStep_Path, if_neg hp]
          exact hval
        by_cases hd : (optionRunner newConfig opts).Driver = ""
        · have hd' : (defaultPathStep (optionRunner newConfig opts)).Driver = "" := by
            rw [defaultPathStep_Driver]
            exact hd
          cases hdd : detectDriver drivers with
          | error e' =>
            obtain ⟨_, ha, hb⟩ := detectDriver_error_inv drivers e' hdd
            exact ⟨Or.inr hval, hd, ha, hb⟩
          | ok d =>
            rw [buildConfig_of_detected drivers opts d hv hd' hdd] at he
            cases he
        · have hd' : (defaultPathStep (optionRunner newConfig opts)).Driver ≠ "" := by
            rw [defaultPathStep_Driver]
            exact hd
          rw [buildConfig_of_explicit drivers opts hv hd'] at he
          cases he
      · rw [hfail hp hval] at he
        cases he
        rw [(errorsIs_invalid_path_error _).2] at hdet
        cases hdet

/-- Claim C28 on `WithPath("invalid")` with an empty registry, and on
`Test_buildConfig_WithoutRegisteredDrivers`. -/
theorem path_checked_before_driver_witness :
    (∃ e, buildConfig [] [WithPath "invalid"] = .error e ∧ errorsIs e ErrInvalidPath = true ∧
      errorsIs e ErrCantDetectDriver = false) ∧
    buildConfig [] [] = .error ErrCantDetectDriver :=
  ⟨(path_checked_before_driver [] [WithPath "invalid"]).1 (by decide) (by decide) rfl, rfl⟩

/-- Claim C29: `buildMattnDSN` compiles at most as many parameters as
`buildModerncDSN`; the difference is the number of the two integer-coded fields
that hold a non-empty value outside their enumeration; and when both fields are
unset or named, the two compilers emit the same fields at the same positions. -/
theorem compilers_emit_same_fields (c : Config) :
    (mattnParams c).length ≤ (moderncParams c).length ∧
    (moderncParams c).length =
      (mattnParams c).length +
        (if c.AutoVacuumMode ≠ "" ∧
            c.AutoVacuumMode ∉ [AutoVacuumNone, AutoVacuumFull, AutoVacuumIncremental] then 1
          else 0) +
        (if c.SyncMode ≠ "" ∧ c.SyncMode ∉ [SyncOff, SyncNormal, SyncFull, SyncExtra] then 1
          else 0) ∧
    (c.AutoVacuumMode ∈ ["", AutoVacuumNone, AutoVacuumFull, AutoVacuumIncremental] →
      c.SyncMode ∈ ["", SyncOff, SyncNormal, SyncFull, SyncExtra] →
      (mattnParams c).length = (moderncParams c).length ∧
      (mattnParams c).map mattnFieldIndex = (moderncParams c).map moderncFieldIndex) := by
  have hlen := moderncParams_length_eq c
  refine ⟨by omega, hlen, ?_⟩
  intro ha hs
  have ha' : c.AutoVacuumMode ≠ AutoVacuumDefault →
      AutoVacuumMode.Int c.AutoVacuumMode ≠ -99 := by
    intro hne
    rw [Ne, AutoVacuumMode_Int_eq_sentinel_iff]
    simp only [List.mem_cons, List.mem_singleton, List.not_mem_nil, or_false] at ha
    rcases ha with h | h | h | h
    · exact absurd h hne
    all_goals simp [h]
  have hs' : c.SyncMode ≠ SyncDefault → SyncMode.Int c.SyncMode ≠ -99 := by
    intro hne
    rw [Ne, SyncMode_Int_eq_sentinel_iff]
    simp only [List.mem_cons, List.mem_singleton, List.not_mem_nil, or_false] at hs
    rcases hs with h | h | h | h | h
    · exact absurd h hne
    all_goals simp [h]
  have hidx : (mattnParams c).map mattnFieldIndex = (moderncParams c).map moderncFieldIndex := by
    rw [mattnParams_indices, moderncParams_indices]
    have e1 : (c.AutoVacuumMode ≠ AutoVacuumDefault ∧
        AutoVacuumMode.Int c.AutoVacuumMode ≠ -99) ↔ c.AutoVacuumMode ≠ AutoVacuumDefault :=
      ⟨fun h => h.1, fun h => ⟨h, ha' h⟩⟩
    have e2 : (c.SyncMode ≠ SyncDefault ∧ SyncMode.Int c.SyncMode ≠ -99) ↔
        c.SyncMode ≠ SyncDefault :=
      ⟨fun h => h.1, fun h => ⟨h, hs' h⟩⟩
    simp only [e1, e2]
  refine ⟨?_, hidx⟩
  have := congrArg List.length hidx
  simpa using this

/-- Claim C29 on the test configuration with all seven fields, and on the baseline
with both integer-coded modes set to `invalid`. -/
theorem compilers_emit_same_fields_witness :
    (mattnParams testAllFields).length = 7 ∧ (moderncParams testAllFields).length = 7 ∧
      (mattnParams testAllFields).map mattnFieldIndex = [0, 1, 2, 3, 4, 5, 6] ∧
      (moderncParams testAllFields).map moderncFieldIndex = [0, 1, 2, 3, 4, 5, 6] ∧
      (moderncParams { newConfig with AutoVacuumMode := "invalid", SyncMode := "invalid" }).length =
        (mattnParams { newConfig with AutoVacuumMode := "invalid", SyncMode := "invalid" }).length
          + 1 + 1 := by
  have h := (compilers_emit_same_fields testAllFields).2.2 (by decide) (by decide)
  have h7 : (mattnParams testAllFields).length = 7 := by decide
  have hi : (mattnParams testAllFields).map mattnFieldIndex = [0, 1, 2, 3, 4, 5, 6] := by decide
  exact ⟨h7, h.1 ▸ h7, hi, h.2 ▸ hi,
    (compilers_emit_same_fields { newConfig with AutoVacuumMode := "invalid", SyncMode := "invalid" }).2.1.trans
      (by decide)⟩

/-- Claim C30: with `BusyTimeout ≤ 0`, `CaseSensitiveLike` and `ForeignKey` false and
`JournalMode` unset, both compilers return exactly `Path` when `AutoVacuumMode`
and `SyncMode` are unset, and `buildMattnDSN` returns exactly `Path` when they hold
values outside their enumerations; the other fields do not matter. -/
theorem nothing_emitted_bare_path (c : Config) (hn : c.BusyTimeout ≤ 0) (hcsl : c.CaseSensitiveLike = false)
    (hfk : c.ForeignKey = false) (hj : c.JournalMode = "") :
    (c.AutoVacuumMode = "" → c.SyncMode = "" →
      buildMattnDSN c = c.Path ∧ buildModerncDSN c = c.Path) ∧
    (c.AutoVacuumMode ∉ [AutoVacuumNone, AutoVacuumFull, AutoVacuumIncremental] →
      c.SyncMode ∉ [SyncOff, SyncNormal, SyncFull, SyncExtra] →
      buildMattnDSN c = c.Path) := by
  have hn' : ¬ c.BusyTimeout > 0 := not_lt.mpr hn
  constructor
  · intro ha hs
    constructor
    · simp [buildMattnDSN, mattnParams_blocks, hn', hcsl, hfk, hj, ha, hs, AutoVacuumDefault,
        SyncDefault, JournalDefault, buildDSN]
    · simp [buildModerncDSN, moderncParams_blocks, hn', hcsl, hfk, hj, ha, hs,
        AutoVacuumDefault, SyncDefault, JournalDefault, buildDSN]
  · intro ha hs
    have ha' : AutoVacuumMode.Int c.AutoVacuumMode = -99 :=
      (AutoVacuumMode_Int_eq_sentinel_iff _).mpr (by simpa using ha)
    have hs' : SyncMode.Int c.SyncMode = -99 :=
      (SyncMode_Int_eq_sentinel_iff _).mpr (by simpa using hs)
    simp [buildMattnDSN, mattnParams_blocks, hn', hcsl, hfk, hj, ha', hs', JournalDefault,
      buildDSN]

/-- Claim C30 on the path `file:data.db` with `DeferForeignKeys` set, and with both
integer-coded modes set to `invalid`. -/
theorem nothing_emitted_bare_path_witness :
    buildMattnDSN
        { newConfig with
          Path := "file:data.db", BusyTimeout := 0, ForeignKey := false, JournalMode := "",
          SyncMode := "", DeferForeignKeys := true } = "file:data.db" ∧
      buildModerncDSN
        { newConfig with
          Path := "file:data.db", BusyTimeout := 0, ForeignKey := false, JournalMode := "",
          SyncMode := "", DeferForeignKeys := true } = "file:data.db" ∧
      buildMattnDSN
        { newConfig with
          Path := "file:data.db", BusyTimeout := -1, ForeignKey := false, JournalMode := "",
          AutoVacuumMode := "invalid", SyncMode := "invalid" } = "file:data.db" :=
  ⟨((nothing_emitted_bare_path _ (by decide) rfl rfl rfl).1 rfl rfl).1, ((nothing_emitted_bare_path _ (by decide) rfl rfl rfl).1 rfl rfl).2,
   (nothing_emitted_bare_path _ (by decide) rfl rfl rfl).2 (by decide) (by decide)⟩

end Sqlite
